import Mathlib

/-!
Shallow embedding of the `evo_sim` simulation core (Python) in Lean 4,
with theorems checking the natural-language specification against it.

Modelling conventions:
* Python floats are embedded as exact rationals (`ℚ`).  The transcendental
  operations the code uses (`math.hypot`'s square root, `math.cos`,
  `math.sin`) are abstracted as function parameters collected in an
  `Oracle`; every theorem is proved for an arbitrary oracle.
* `random.Random` is embedded as a deterministic stream: the oracle's
  `gen` field maps a seed and a draw index to the raw draw in `[0,1]`;
  an `Rng` value is a (seed, next-index) pair consumed sequentially.
  `gauss` and `choice` consume one raw draw each (an abstraction of
  CPython's underlying bit stream; the claims proved here do not depend
  on the distribution of the draws, only on sequential determinism).
* Python `int` is `ℤ`, non-negative counters are `ℕ`, strings are `String`.
-/

namespace EvoSim

/-- Lowercasing of a Python string (`str.lower`), written over the
character list so that it evaluates by `decide`. -/
def pylower (s : String) : String := String.mk (s.data.map Char.toLower)

/-- Python `int(q)` on a rational: truncation toward zero. -/
def pyInt (q : ℚ) : ℤ := Int.tdiv q.num (q.den : ℤ)

/-- Abstract real-valued operations and the raw random stream.
`sqrtA q` stands for the float `math.sqrt(q)` (so `math.hypot x y =
sqrtA (x^2 + y^2)`), `cosA`/`sinA` for `math.cos`/`math.sin`, and
`gen seed i` for the i-th raw draw in `[0,1]` of a `random.Random`
seeded with `seed`. -/
structure Oracle where
  sqrtA : ℚ → ℚ
  cosA : ℚ → ℚ
  sinA : ℚ → ℚ
  piA : ℚ := 3.141592653589793
  gen : ℤ → ℕ → ℚ

/-- State of the sequential RNG (`evo_sim/sim/rng.py`): the seed it was
last seeded with and the index of the next raw draw. -/
structure Rng where
  seed : ℤ
  idx : ℕ
deriving Repr

/-- `RNG.seed(s)` from rng.py: reset the stream. -/
def Rng.reseed (s : ℤ) : Rng := ⟨s, 0⟩

/-- Consume one raw draw in `[0,1]`. -/
def Rng.next (O : Oracle) (g : Rng) : ℚ × Rng :=
  (O.gen g.seed g.idx, ⟨g.seed, g.idx + 1⟩)

/-- `RNG.uniform(a, b)` from rng.py: `a + (b - a) * u` for one raw draw `u`. -/
def uniform (O : Oracle) (a b : ℚ) (g : Rng) : ℚ × Rng :=
  let r := Rng.next O g
  (a + (b - a) * r.1, r.2)

/-- `RNG.gauss(mu, sigma)` from rng.py, abstracted to one raw draw `u`:
the sample is `mu + sigma * u`. -/
def gauss (O : Oracle) (mu sigma : ℚ) (g : Rng) : ℚ × Rng :=
  let r := Rng.next O g
  (mu + sigma * r.1, r.2)

/-- `RNG.choice(seq)` from rng.py, abstracted to one raw draw selecting
an index of the (non-empty) sequence. -/
def choice {α : Type} (O : Oracle) (l : List α) (dflt : α) (g : Rng) : α × Rng :=
  let r := Rng.next O g
  let i : ℕ := min (pyInt (r.1 * (l.length : ℚ))).toNat (l.length - 1)
  (l.getD i dflt, r.2)

/-! ## Configuration (`evo_sim/sim/config.py`) -/

structure WorldConfig where
  width : ℚ
  height : ℚ
  day_steps : ℕ
  dt : ℚ
  n_food : ℕ
  home_margin : ℚ
  bite_radius_scale : ℚ

def WORLD : WorldConfig :=
  { width := 250, height := 250, day_steps := 1500, dt := 0.05,
    n_food := 180, home_margin := 1.5, bite_radius_scale := 0.70 }

structure EnergyConfig where
  base_energy : ℚ
  C_size : ℚ
  C_sense : ℚ
  C_move : ℚ

def ENERGY : EnergyConfig :=
  { base_energy := 190.0, C_size := 0.0035, C_sense := 0.0042, C_move := 0.0065 }

structure TraitConfig where
  min_speed : ℚ
  max_speed : ℚ
  min_size : ℚ
  max_size : ℚ
  min_sense : ℚ
  max_sense : ℚ
  sense_food_scale : ℚ
  sense_pred_scale : ℚ
  sense_prey_scale : ℚ

def TRAITS : TraitConfig :=
  { min_speed := 0.2, max_speed := 10.0, min_size := 0.3, max_size := 8.0,
    min_sense := 5.0, max_sense := 140.0,
    sense_food_scale := 1.25, sense_pred_scale := 1.5, sense_prey_scale := 1.0 }

structure BehaviorConfig where
  wander_turn_rate : ℚ
  wander_speed_fraction : ℚ
  return_energy_margin : ℚ

def BEHAV : BehaviorConfig :=
  { wander_turn_rate := 1.4, wander_speed_fraction := 0.85, return_energy_margin := 1.20 }

structure ReproConfig where
  reproduction_offspring : ℕ
  mutation_rate : ℚ
  mutation_sd_frac : ℚ

def REPRO : ReproConfig :=
  { reproduction_offspring := 1, mutation_rate := 0.10, mutation_sd_frac := 0.15 }

structure SpeciationConfig where
  threshold_frac : ℚ
  min_metabolism : ℚ
  max_metabolism : ℚ

def SPECIATION : SpeciationConfig :=
  { threshold_frac := 0.40, min_metabolism := 0.80, max_metabolism := 1.20 }

structure RiskConfig where
  base_p_kill : ℚ
  size_weight : ℚ
  speed_weight : ℚ
  min_p_kill : ℚ
  max_p_kill : ℚ
  injury_on_fail_prob : ℚ
  injury_days_min : ℚ
  injury_days_max : ℚ
  injury_speed_mult_lo : ℚ
  injury_speed_mult_hi : ℚ
  energy_loss_on_fail : ℚ
  fatal_counterattack_prob : ℚ
  injury_energy_leak_per_time : ℚ

def RISK : RiskConfig :=
  { base_p_kill := 0.35, size_weight := 0.60, speed_weight := 0.25,
    min_p_kill := 0.05, max_p_kill := 0.98, injury_on_fail_prob := 0.75,
    injury_days_min := 1, injury_days_max := 3,
    injury_speed_mult_lo := 0.60, injury_speed_mult_hi := 0.90,
    energy_loss_on_fail := 8.0, fatal_counterattack_prob := 0.10,
    injury_energy_leak_per_time := 0.003 }

structure PreyAvoidConfig where
  radius_mult : ℚ
  min_count : ℕ

def PREY_AVOID : PreyAvoidConfig := { radius_mult := 1.6, min_count := 2 }

structure SimConfig where
  seed : ℤ
  initial_population : ℕ
  days : ℕ

def SIM : SimConfig := { seed := 42, initial_population := 60, days := 100 }

/-- Modelled from the spec: the `PRED_HOME` configuration object is
imported by `world.py` from `config.py` but is absent from the repository,
so its three fields (`center_ring_radius`, `ring_jitter`, `spawn_at_home`)
are kept as parameters; the spec only says centrally-denned classes get
"a jittered point at/near the rectangle center". -/
structure PredHomeConfig where
  center_ring_radius : ℚ
  ring_jitter : ℚ
  spawn_at_home : Bool

/-- Behavior-module constants (`behaviors.py`, lines 15-22). -/
def AVOID_RADIUS_MULT : ℚ := PREY_AVOID.radius_mult
def AVOID_MIN_COUNT : ℕ := PREY_AVOID.min_count
def HUNGRY_STREAK_FOR_BRAVERY : ℕ := 1
def HUNGRY_PKILL_BONUS : ℚ := 0.10
def HUNGRY_PREY_RADIUS_MULT : ℚ := 1.15
def HUNGRY_MIN_SCORE : ℚ := 0.005
def BASE_MIN_SCORE : ℚ := 0.02

/-! ## Data model (`evo_sim/sim/models.py`) -/

structure Species where
  id : ℤ
  name : String
  color : ℤ × ℤ × ℤ
  aggression : ℚ
  bravery : ℚ
  metabolism : ℚ
  diet : String
deriving Repr, DecidableEq

structure Food where
  x : ℚ
  y : ℚ
  id : ℤ
deriving Repr, DecidableEq

structure Creature where
  id : ℤ
  species : Species
  speed : ℚ
  size : ℚ
  sense : ℚ
  x : ℚ
  y : ℚ
  home : ℚ × ℚ
  energy : ℚ
  eaten : ℕ := 0
  alive : Bool := true
  going_home : Bool := false
  heading : ℚ := 0
  target : Option (ℚ × ℚ) := none
  hungry_streak : ℕ := 0
  prey_kills_today : ℕ := 0
  injury_days_left : ℤ := 0
  injury_speed_mult : ℚ := 1.0
deriving Repr, DecidableEq

/-- `Creature.at_home(margin)` from models.py: Euclidean distance to home
(under the square-root oracle) at most `margin`. -/
def Creature.at_home (O : Oracle) (c : Creature) (margin : ℚ) : Bool :=
  decide (O.sqrtA ((c.x - c.home.1) ^ 2 + (c.y - c.home.2) ^ 2) ≤ margin)

/-- `Creature.effective_speed()` from models.py. -/
def Creature.effective_speed (c : Creature) : ℚ :=
  c.speed * (if 0 < c.injury_days_left then c.injury_speed_mult else 1)

/-! ## Diet-specific predation rules (`evo_sim/sim/behaviors.py`) -/

/-- `bite_radius(c)` from behaviors.py. -/
def bite_radius (c : Creature) : ℚ := WORLD.bite_radius_scale * c.size

/-- `can_eat(pred, prey)` from behaviors.py (lines 54-80). -/
def can_eat (pred prey : Creature) : Bool :=
  let pred_diet := pylower pred.species.diet
  let prey_diet := pylower prey.species.diet
  if pred_diet = "herbivore" then false
  else if prey_diet = "carnivore" then false
  else if pred_diet = "carnivore" then decide (prey.size ≤ 1.4 * pred.size)
  else if pred_diet = "omnivore" then decide (pred.size ≥ 1.2 * prey.size)
  else false

/-! ## Claim C2 -/

/-- C2: `can_eat` is a deterministic function of the two creatures' diets
and sizes only; it returns false whenever the predator is a herbivore or
the prey is a carnivore (so carnivore-vs-carnivore is never permitted in
either direction); for a carnivore predator (and non-carnivore prey) it
returns true iff `prey.size <= 1.4 * pred.size`; for an omnivore predator
(and non-carnivore prey) it returns true iff `pred.size >= 1.2 * prey.size`. -/
theorem C2_can_eat_spec (pred prey : Creature) :
    (pylower pred.species.diet = "herbivore" → can_eat pred prey = false)
    ∧ (pylower prey.species.diet = "carnivore" → can_eat pred prey = false)
    ∧ (pylower pred.species.diet = "carnivore" →
        pylower prey.species.diet ≠ "carnivore" →
        (can_eat pred prey = true ↔ prey.size ≤ 1.4 * pred.size))
    ∧ (pylower pred.species.diet = "omnivore" →
        pylower prey.species.diet ≠ "carnivore" →
        (can_eat pred prey = true ↔ pred.size ≥ 1.2 * prey.size))
    ∧ (∀ pred2 prey2 : Creature,
        pred2.species.diet = pred.species.diet →
        prey2.species.diet = prey.species.diet →
        pred2.size = pred.size → prey2.size = prey.size →
        can_eat pred2 prey2 = can_eat pred prey) := by
  refine ⟨?_, ?_, ?_, ?_, ?_⟩
  · intro h; simp only [can_eat, h]; simp
  · intro h
    simp only [can_eat, h]
    split <;> simp
  · intro hp hq
    simp only [can_eat]
    rw [hp, if_neg (by decide), if_neg hq, if_pos rfl]
    simp only [decide_eq_true_eq]
  · intro hp hq
    simp only [can_eat]
    rw [hp, if_neg (by decide), if_neg hq, if_neg (by decide), if_pos rfl]
    simp only [decide_eq_true_eq]
  · intro pred2 prey2 h1 h2 h3 h4
    simp only [can_eat, h1, h2, h3, h4]

/-! ## End-of-day selection (`evo_sim/sim/engine.py`, lines 141-199) -/

/-- Starvation-memory update (engine.py lines 167-170): `eaten == 0`
increments `hungry_streak`, otherwise resets it to 0. -/
def streakStep (c : Creature) : Creature :=
  if c.eaten = 0 then { c with hungry_streak := c.hungry_streak + 1 }
  else { c with hungry_streak := 0 }

/-- Per-creature body of the `end_of_day_selection` loop (engine.py lines
162-197) applied to a living creature.  The Python code mutates
`hungry_streak` and `alive` in place; here the updated creature is
returned, together with the reproduction order emitted for it (if any).
The creature survives exactly when the returned creature is alive. -/
def selOne (O : Oracle) (c : Creature) : Creature × Option ℕ :=
  let c1 := streakStep c
  if 2 ≤ c1.hungry_streak then ({ c1 with alive := false }, none)
  else
    let diet := pylower c1.species.diet
    if 1 ≤ c1.eaten then
      if Creature.at_home O c1 WORLD.home_margin = false then
        ({ c1 with alive := false }, none)
      else if diet = "carnivore" then
        (c1, if 1 ≤ c1.prey_kills_today then some 1 else none)
      else if diet = "omnivore" then
        (c1, if 1 ≤ c1.prey_kills_today ∨ 2 ≤ c1.eaten then some 1 else none)
      else
        (c1, if 3 ≤ c1.eaten then some 2
             else if 2 ≤ c1.eaten then some 1 else none)
    else (c1, none)

/-- `end_of_day_selection(population)` from engine.py: skips dead
creatures, processes living ones with `selOne`, and accumulates the
survivors and the reproduction orders in population order. -/
def end_of_day_selection (O : Oracle) :
    List Creature → List Creature × List (Creature × ℕ)
  | [] => ([], [])
  | c :: rest =>
    let (surv, rep) := end_of_day_selection O rest
    if c.alive = false then (surv, rep)
    else
      let (c', k) := selOne O c
      ((if c'.alive then [c'] else []) ++ surv,
       (match k with
        | some n => [(c', n)]
        | none => []) ++ rep)

/-! ## Claim C1 -/

/-- C1: for every living creature processed by `end_of_day_selection`:
`eaten == 0` increments the hunger streak, otherwise it resets to 0; a
streak reaching 2 kills the creature regardless of energy or position; a
creature with `eaten >= 1` away from home dies; the reproduction orders
are exactly the per-diet table (carnivore: ≥1 kill → 1; omnivore: ≥1 kill
or ≥2 food → 1; herbivore: ≥3 food → 2, == 2 food → 1); and creatures
with `eaten == 0` and streak < 2 survive without reproducing.  The final
conjunct states how `end_of_day_selection` processes the creature. -/
theorem C1_selection_spec (O : Oracle) (c : Creature) (h : c.alive = true) :
    (c.eaten = 0 → (selOne O c).1.hungry_streak = c.hungry_streak + 1)
    ∧ (c.eaten ≠ 0 → (selOne O c).1.hungry_streak = 0)
    ∧ (c.eaten = 0 → 1 ≤ c.hungry_streak →
        (selOne O c).1.alive = false ∧ (selOne O c).2 = none)
    ∧ (1 ≤ c.eaten → Creature.at_home O (streakStep c) WORLD.home_margin = false →
        (selOne O c).1.alive = false ∧ (selOne O c).2 = none)
    ∧ (1 ≤ c.eaten → Creature.at_home O (streakStep c) WORLD.home_margin = true →
        (selOne O c).1.alive = true
        ∧ (pylower c.species.diet = "carnivore" →
            (selOne O c).2 = if 1 ≤ c.prey_kills_today then some 1 else none)
        ∧ (pylower c.species.diet = "omnivore" →
            (selOne O c).2 =
              if 1 ≤ c.prey_kills_today ∨ 2 ≤ c.eaten then some 1 else none)
        ∧ (pylower c.species.diet = "herbivore" →
            (selOne O c).2 = if 3 ≤ c.eaten then some 2
                             else if 2 ≤ c.eaten then some 1 else none))
    ∧ (c.eaten = 0 → c.hungry_streak = 0 →
        (selOne O c).1.alive = true ∧ (selOne O c).2 = none)
    ∧ (∀ rest : List Creature,
        end_of_day_selection O (c :: rest) =
          ((if (selOne O c).1.alive then [(selOne O c).1] else [])
              ++ (end_of_day_selection O rest).1,
           (match (selOne O c).2 with
            | some n => [((selOne O c).1, n)]
            | none => []) ++ (end_of_day_selection O rest).2)) := by
  refine ⟨?_, ?_, ?_, ?_, ?_, ?_, ?_⟩
  · intro h0
    simp only [selOne, streakStep, if_pos h0]
    split_ifs <;> rfl
  · intro h0
    simp only [selOne, streakStep, if_neg h0]
    split_ifs <;> rfl
  · intro h0 h1
    have h2 : 2 ≤ (streakStep c).hungry_streak := by
      simp only [streakStep, if_pos h0]; omega
    simp only [selOne, if_pos h2]
    exact ⟨by trivial, by trivial⟩
  · intro h0 hm
    have he : (streakStep c).eaten = c.eaten := by
      simp only [streakStep]; split_ifs <;> rfl
    have h2 : ¬ 2 ≤ (streakStep c).hungry_streak := by
      have : c.eaten ≠ 0 := by omega
      simp only [streakStep, if_neg this]; omega
    simp only [selOne, if_neg h2, he, if_pos h0, if_pos hm]
    exact ⟨by trivial, by trivial⟩
  · intro h0 hm
    have he : (streakStep c).eaten = c.eaten := by
      simp only [streakStep]; split_ifs <;> rfl
    have hk : (streakStep c).prey_kills_today = c.prey_kills_today := by
      simp only [streakStep]; split_ifs <;> rfl
    have hd : (streakStep c).species = c.species := by
      simp only [streakStep]; split_ifs <;> rfl
    have ha : (streakStep c).alive = true := by
      simp only [streakStep]; split_ifs <;> exact h
    have h2 : ¬ 2 ≤ (streakStep c).hungry_streak := by
      have : c.eaten ≠ 0 := by omega
      simp only [streakStep, if_neg this]; omega
    have hm' : ¬ (Creature.at_home O (streakStep c) WORLD.home_margin = false) := by
      rw [hm]; simp
    simp only [selOne, if_neg h2, he, if_pos h0, if_neg hm', hd, hk]
    refine ⟨?_, ?_, ?_, ?_⟩
    · split_ifs <;> exact ha
    · intro hdc; rw [if_pos hdc]
    · intro hdc
      have : pylower c.species.diet ≠ "carnivore" := by rw [hdc]; decide
      rw [if_neg this, if_pos hdc]
    · intro hdc
      have t1 : pylower c.species.diet ≠ "carnivore" := by rw [hdc]; decide
      have t2 : pylower c.species.diet ≠ "omnivore" := by rw [hdc]; decide
      rw [if_neg t1, if_neg t2]
  · intro h0 h1
    have h2 : ¬ 2 ≤ (streakStep c).hungry_streak := by
      simp only [streakStep, if_pos h0]; omega
    have he : (streakStep c).eaten = c.eaten := by
      simp only [streakStep]; split_ifs <;> rfl
    have ha : (streakStep c).alive = true := by
      simp only [streakStep]; split_ifs <;> exact h
    have h3 : ¬ 1 ≤ (streakStep c).eaten := by omega
    simp only [selOne, if_neg h2, if_neg h3]
    exact ⟨by trivial, by trivial⟩
  · intro rest
    simp only [end_of_day_selection, h]
    simp

/-- A concrete oracle whose square root, cosine, sine and random stream
are all constantly zero, used by witnesses. -/
def OW1 : Oracle :=
  { sqrtA := fun _ => 0, cosA := fun _ => 0, sinA := fun _ => 0,
    gen := fun _ _ => 0 }

/-- Concrete herbivore (ate 2, sitting at its home) used by the C1 witness. -/
def cW1 : Creature :=
  { id := 7,
    species := { id := 2, name := "Amber", color := (240, 160, 60),
                 aggression := 0.10, bravery := 0.80, metabolism := 0.95,
                 diet := "herbivore" },
    speed := 1, size := 1, sense := 10, x := 5, y := 5, home := (5, 5),
    energy := 100, eaten := 2 }

/-- Witness for C1: a herbivore that ate 2 and is at home survives and
emits one reproduction order. -/
theorem C1_selection_spec_witness :
    cW1.alive = true ∧ 1 ≤ cW1.eaten
    ∧ Creature.at_home OW1 (streakStep cW1) WORLD.home_margin = true
    ∧ (selOne OW1 cW1).1.alive = true ∧ (selOne OW1 cW1).2 = some 1 := by
  have h1 : cW1.alive = true := rfl
  have h2 : (1 : ℕ) ≤ cW1.eaten := by norm_num [cW1]
  have h3 : Creature.at_home OW1 (streakStep cW1) WORLD.home_margin = true := by
    norm_num [Creature.at_home, streakStep, OW1, cW1, WORLD]
  have main := (C1_selection_spec OW1 cW1 h1).2.2.2.2.1 h2 h3
  refine ⟨h1, h2, h3, main.1, ?_⟩
  have hrep := main.2.2.2 (by decide)
  rw [hrep]
  norm_num [cW1]

/-- Concrete carnivore (size 2) used by the C2 witness. -/
def predC2 : Creature :=
  { id := 3,
    species := { id := 3, name := "Viridian", color := (60, 200, 120),
                 aggression := 0.65, bravery := 0.40, metabolism := 1.05,
                 diet := "carnivore" },
    speed := 1, size := 2, sense := 10, x := 0, y := 0, home := (0, 0),
    energy := 100 }

/-- Concrete herbivore (size 1) used by the C2 witness. -/
def preyC2 : Creature :=
  { id := 4,
    species := { id := 2, name := "Amber", color := (240, 160, 60),
                 aggression := 0.10, bravery := 0.80, metabolism := 0.95,
                 diet := "herbivore" },
    speed := 1, size := 1, sense := 10, x := 0, y := 0, home := (0, 0),
    energy := 100 }

/-- Witness for C2 at a concrete input: a carnivore of size 2 may eat a
herbivore of size 1. -/
theorem C2_can_eat_spec_witness :
    pylower predC2.species.diet = "carnivore" ∧ can_eat predC2 preyC2 = true := by
  refine ⟨by decide, ?_⟩
  refine ((C2_can_eat_spec predC2 preyC2).2.2.1 (by decide) (by decide)).mpr ?_
  show (1 : ℚ) ≤ 1.4 * 2
  norm_num

/-! ## World (`evo_sim/sim/world.py`) -/

structure World where
  width : ℚ := WORLD.width
  height : ℚ := WORLD.height
  food : List Food := []
  food_counter : ℤ := 0
deriving Repr, DecidableEq

/-- Loop body of `spawn_food_uniform` (world.py lines 22-27): append `n`
foods at uniformly random in-bounds points with fresh ids. -/
def spawn_food_go (O : Oracle) : ℕ → World → Rng → World × Rng
  | 0, w, g => (w, g)
  | n + 1, w, g =>
    let qx := uniform O 0 w.width g
    let qy := uniform O 0 w.height qx.2
    let fid := w.food_counter + 1
    spawn_food_go O n
      { w with food := w.food ++ [⟨qx.1, qy.1, fid⟩], food_counter := fid } qy.2

/-- `World.spawn_food_uniform(n)` from world.py: replaces the food set. -/
def spawn_food_uniform (O : Oracle) (w : World) (n : ℕ) (g : Rng) : World × Rng :=
  spawn_food_go O n { w with food := [] } g

/-- `World.nearest_food_within(x, y, radius)` from world.py: the food
minimizing squared distance within the radius (later entries win ties). -/
def nearest_food_within (w : World) (x y r : ℚ) : Option Food :=
  (w.food.foldl
    (fun (best : Option Food × ℚ) f =>
      let d2 := (f.x - x) ^ 2 + (f.y - y) ^ 2
      if d2 ≤ best.2 then (some f, d2) else best)
    (none, r * r)).1

/-- `World.remove_food(fid)` from world.py. -/
def remove_food (w : World) (fid : ℤ) : World :=
  { w with food := w.food.filter (fun f => f.id ≠ fid) }

/-- `World.clamp_inside(x, y)` from world.py: hard-wall clamp. -/
def clamp_inside (w : World) (x y : ℚ) : ℚ × ℚ :=
  (min (max x 0) w.width, min (max y 0) w.height)

/-- `World._random_edge_point()` from world.py (lines 30-38): a uniformly
random point on one of the four edges of the rectangle.  This helper is
defined in the source but — with the herbivore branch of
`spawn_creatures_at_edges` commented out — is never called. -/
def random_edge_point (O : Oracle) (w : World) (g : Rng) : (ℚ × ℚ) × Rng :=
  let sc := choice O ["left", "right", "top", "bottom"] "bottom" g
  let side := sc.1
  let g1 := sc.2
  if side = "left" then
    let q := uniform O 0 w.height g1
    ((0, q.1), q.2)
  else if side = "right" then
    let q := uniform O 0 w.height g1
    ((w.width, q.1), q.2)
  else if side = "top" then
    let q := uniform O 0 w.width g1
    ((q.1, w.height), q.2)
  else
    let q := uniform O 0 w.width g1
    ((q.1, 0), q.2)

/-- `World._predator_center_point()` from world.py (lines 40-56): exact
center when the ring radius is (near) zero, otherwise a jittered ring
point around the center, clamped inside the world. -/
def predator_center_point (O : Oracle) (P : PredHomeConfig) (w : World) (g : Rng) :
    (ℚ × ℚ) × Rng :=
  let cx := w.width * 0.5
  let cy := w.height * 0.5
  let r0 := max 0 P.center_ring_radius
  if r0 ≤ 1 / 1000000 then ((cx, cy), g)
  else
    let rj := max 0 P.ring_jitter
    let qd := uniform O (-rj) rj g
    let r := max 0 (r0 + qd.1)
    let qa := uniform O 0 (2 * O.piA) qd.2
    let x := cx + r * O.cosA qa.1
    let y := cy + r * O.sinA qa.1
    ((min (max x 0) w.width, min (max y 0) w.height), qa.2)

/-- Per-creature body of `spawn_creatures_at_edges` (world.py lines
64-98).  The herbivore edge-placement branch is commented out in the
source, so every creature — regardless of diet — receives the
center-point policy; both arms of the `spawn_at_home` conditional place
the creature at its home. -/
def spawn_one (O : Oracle) (P : PredHomeConfig) (w : World) (c : Creature) (g : Rng) :
    Creature × Rng :=
  let pc := predator_center_point O P w g
  let h := pc.1
  let g1 := pc.2
  let c := { c with home := h }
  let c := if P.spawn_at_home then { c with x := h.1, y := h.2 }
           else { c with x := h.1, y := h.2 }
  let c := { c with energy := ENERGY.base_energy, eaten := 0, alive := true,
                    going_home := false, target := none, prey_kills_today := 0 }
  let c :=
    if 0 < c.injury_days_left then
      let d := c.injury_days_left - 1
      if d ≤ 0 then { c with injury_days_left := 0, injury_speed_mult := 1.0 }
      else { c with injury_days_left := d }
    else c
  (c, g1)

/-- `World.spawn_creatures_at_edges(population)` from world.py: start-of-day
placement and per-day reset for every creature, in population order. -/
def spawn_creatures_at_edges (O : Oracle) (P : PredHomeConfig) (w : World) :
    List Creature → Rng → List Creature × Rng
  | [], g => ([], g)
  | c :: rest, g =>
    let q := spawn_one O P w c g
    let qr := spawn_creatures_at_edges O P w rest q.2
    (q.1 :: qr.1, qr.2)

/-! ## Engine helpers (`evo_sim/sim/engine.py`, lines 12-105) -/

/-- `_clamp_speed(vx, vy, vmax)` from engine.py. -/
def clamp_speed (O : Oracle) (vx vy vmax : ℚ) : ℚ × ℚ :=
  let spd := O.sqrtA (vx ^ 2 + vy ^ 2)
  if spd ≤ vmax ∨ spd ≤ 1 / 1000000000000 then (vx, vy)
  else
    let f := vmax / spd
    (vx * f, vy * f)

/-- `_apply_motion(world, me, vx, vy, dt)` from engine.py. -/
def apply_motion (w : World) (me : Creature) (vx vy dt : ℚ) : Creature :=
  let p := clamp_inside w (me.x + vx * dt) (me.y + vy * dt)
  { me with x := p.1, y := p.2 }

/-- `_apply_energy(me, moving_speed, dt)` from engine.py (lines 22-29):
subtract the metabolic cost and kill the creature at energy `<= 0`. -/
def apply_energy (me : Creature) (moving_speed dt : ℚ) : Creature :=
  let base := ENERGY.C_size * me.size ^ 3 + ENERGY.C_sense * me.sense
  let move := ENERGY.C_move * me.size ^ 3 * moving_speed ^ 2
  let leak := if 0 < me.injury_days_left then RISK.injury_energy_leak_per_time else 0
  let mult := me.species.metabolism
  let e := me.energy - ((base + move) * mult + leak) * dt
  if e ≤ 0 then { me with energy := e, alive := false }
  else { me with energy := e }

/-- `_kill_probability(pred, prey)` from engine.py (lines 31-37); the copy
in behaviors.py (lines 83-89) computes the same formula. -/
def kill_probability (pred prey : Creature) : ℚ :=
  let size_quot := pred.size / max (1 / 1000000) prey.size
  let speed_adv := pred.speed - prey.speed
  let p := RISK.base_p_kill + RISK.size_weight * (size_quot - 1)
             + RISK.speed_weight * (speed_adv / 6)
  max RISK.min_p_kill (min RISK.max_p_kill p)

/-- `_resolve_attack(pred, prey)` from engine.py (lines 39-72), returning
the updated RNG, predator and prey.  Early-return guards: dead parties,
the per-day kill cap (already one kill today), diet ineligibility, and
carnivore prey with a non-hungry predator. -/
def resolve_attack (O : Oracle) (g : Rng) (pred prey : Creature) :
    Rng × Creature × Creature :=
  if pred.alive = false ∨ prey.alive = false then (g, pred, prey)
  else if 1 ≤ pred.prey_kills_today then (g, pred, prey)
  else if can_eat pred prey = false then (g, pred, prey)
  else if pylower prey.species.diet = "carnivore" ∧ pred.hungry_streak < 1 then
    (g, pred, prey)
  else
    let p_kill := kill_probability pred prey
    let u := (uniform O 0 1 g).1
    let g1 := (uniform O 0 1 g).2
    if u ≤ p_kill then
      (g1,
       { pred with eaten := pred.eaten + 1,
                   prey_kills_today := pred.prey_kills_today + 1 },
       { prey with alive := false })
    else
      let pred1 := { pred with energy := pred.energy - RISK.energy_loss_on_fail }
      if pred1.energy ≤ 0 then (g1, { pred1 with alive := false }, prey)
      else
        let u2 := (uniform O 0 1 g1).1
        let g2 := (uniform O 0 1 g1).2
        let pg :=
          if u2 ≤ RISK.injury_on_fail_prob then
            let qd := uniform O RISK.injury_days_min (RISK.injury_days_max + 1) g2
            let days := pyInt qd.1
            let qm :=
              uniform O RISK.injury_speed_mult_lo RISK.injury_speed_mult_hi qd.2
            ({ pred1 with
                injury_days_left := max pred1.injury_days_left days,
                injury_speed_mult :=
                  if pred1.injury_speed_mult < 1 then min pred1.injury_speed_mult qm.1
                  else qm.1 }, qm.2)
          else (pred1, g2)
        let pred2 := pg.1
        let g3 := pg.2
        if 1.2 * pred.size ≤ prey.size then
          let u3 := (uniform O 0 1 g3).1
          let g4 := (uniform O 0 1 g3).2
          if u3 ≤ RISK.fatal_counterattack_prob then
            (g4, { pred2 with alive := false }, prey)
          else (g4, pred2, prey)
        else (g3, pred2, prey)

/-- `_consume_food_if_reached(world, me)` from engine.py (lines 74-86):
carnivores never eat plant food; otherwise eat the nearest in-bite food. -/
def consume_food_if_reached (O : Oracle) (w : World) (me : Creature) :
    World × Creature :=
  if me.alive = false then (w, me)
  else if pylower me.species.diet = "carnivore" then (w, me)
  else
    let r := bite_radius me
    match nearest_food_within w me.x me.y r with
    | none => (w, me)
    | some f =>
      if O.sqrtA ((f.x - me.x) ^ 2 + (f.y - me.y) ^ 2) ≤ r then
        (remove_food w f.id, { me with eaten := me.eaten + 1 })
      else (w, me)

/-- Target scan of `_consume_prey_if_reached` (engine.py lines 92-102):
index of the nearest eligible living prey within the squared bite radius
(later entries win ties), skipping creatures sharing the hunter's id. -/
def find_prey_target (me : Creature) (others : List Creature) (r : ℚ) : Option ℕ :=
  (others.enum.foldl
    (fun (best : Option ℕ × ℚ) oi =>
      let o := oi.2
      if o.alive = false ∨ o.id = me.id then best
      else if can_eat me o = false then best
      else
        let d2 := (o.x - me.x) ^ 2 + (o.y - me.y) ^ 2
        if d2 ≤ best.2 then (some oi.1, d2) else best)
    (none, r * r)).1

/-- `_consume_prey_if_reached(me, others)` from engine.py (lines 88-105),
acting on the creature at index `i` of the population list: pick the
nearest eligible prey and resolve the attack if it is within bite radius. -/
def consume_prey_if_reached (O : Oracle) (g : Rng) (l : List Creature) (i : ℕ) :
    Rng × List Creature :=
  match l.get? i with
  | none => (g, l)
  | some me =>
    if me.alive = false then (g, l)
    else
      let r := bite_radius me
      match find_prey_target me l r with
      | none => (g, l)
      | some t =>
        match l.get? t with
        | none => (g, l)
        | some tgt =>
          if O.sqrtA ((tgt.x - me.x) ^ 2 + (tgt.y - me.y) ^ 2) ≤ r then
            let ra := resolve_attack O g me tgt
            (ra.1, (l.set i ra.2.1).set t ra.2.2)
          else (g, l)

/-! ## Behavior policy (`evo_sim/sim/behaviors.py`) -/

/-- `_unit(v)` from behaviors.py: zero vector when the norm is zero. -/
def vunit (O : Oracle) (v : ℚ × ℚ) : ℚ × ℚ :=
  let n := O.sqrtA (v.1 ^ 2 + v.2 ^ 2)
  if n = 0 then (0, 0) else (v.1 / n, v.2 / n)

/-- `_mul(v, k)` from behaviors.py. -/
def vmul (v : ℚ × ℚ) (k : ℚ) : ℚ × ℚ := (v.1 * k, v.2 * k)

/-- `_add(a, b)` from behaviors.py. -/
def vadd (a b : ℚ × ℚ) : ℚ × ℚ := (a.1 + b.1, a.2 + b.2)

/-- `_sense_radii(me)` from behaviors.py (lines 40-51). -/
def sense_radii (me : Creature) : ℚ × ℚ × ℚ :=
  let s := me.sense
  let r_food := s * TRAITS.sense_food_scale
  let r_pred := s * TRAITS.sense_pred_scale
  let r_prey := s * TRAITS.sense_prey_scale
  let r_prey := r_prey * (1 + 0.5 * max 0 (min 1 me.species.aggression))
  let r_pred := r_pred * (1 + 0.5 * max 0 (min 1 (1 - me.species.bravery)))
  let r_food := if pylower me.species.diet = "herbivore" then r_food * 1.10 else r_food
  (r_food, r_pred, r_prey)

/-- Flee scan of `step_behavior` (behaviors.py lines 164-173): the nearest
living peer at least 1.2x the agent's size within the squared predator
radius (later entries win ties). -/
def find_predator (me : Creature) (others : List Creature) (r_pred : ℚ) :
    Option Creature :=
  (others.foldl
    (fun (best : Option Creature × ℚ) o =>
      if o.alive = false ∨ o.id = me.id then best
      else if 1.2 * me.size ≤ o.size then
        let d2 := (o.x - me.x) ^ 2 + (o.y - me.y) ^ 2
        if d2 ≤ best.2 then (some o, d2) else best
      else best)
    (none, r_pred * r_pred)).1

/-- The hunt gate of `step_behavior` (behaviors.py lines 242-247): diet
and hunger make the agent want to hunt, but one kill today vetoes it
(the "HARD CAP" in the source). -/
def wantHunt (me : Creature) : Bool :=
  let diet := pylower me.species.diet
  let w := decide (diet = "carnivore")
            || (decide ((0.5 : ℚ) < me.species.aggression) || decide (me.eaten = 0))
  if 1 ≤ me.prey_kills_today then false else w

/-- Predator-density scan for prey (behaviors.py lines 203-215): sums of
positions and count of living carnivores/omnivores within the scan radius. -/
def avoid_scan (me : Creature) (others : List Creature) (scan_r : ℚ) :
    ℚ × ℚ × ℕ :=
  others.foldl
    (fun (a : ℚ × ℚ × ℕ) o =>
      if o.alive = false ∨ o.id = me.id then a
      else
        let od := pylower o.species.diet
        if od = "carnivore" ∨ od = "omnivore" then
          let d2 := (o.x - me.x) ^ 2 + (o.y - me.y) ^ 2
          if d2 ≤ scan_r * scan_r then (a.1 + o.x, a.2.1 + o.y, a.2.2 + 1) else a
        else a)
    (0, 0, 0)

/-- Chase-candidate scan of `step_behavior` (behaviors.py lines 255-276):
best candidate by `p_kill / (1 + d)` among eligible prey within the scan
radius, with the hungry-bravery bonus applied to the perceived kill
probability. -/
def hunt_scan (O : Oracle) (me : Creature) (others : List Creature)
    (scan_r_prey : ℚ) (hungry : Bool) : Option Creature × ℚ :=
  others.foldl
    (fun (best : Option Creature × ℚ) o =>
      if o.alive = false ∨ o.id = me.id then best
      else if can_eat me o = false then best
      else
        let p0 := kill_probability me o
        let p_kill := if hungry then
            max RISK.min_p_kill (min RISK.max_p_kill (p0 + HUNGRY_PKILL_BONUS))
          else p0
        let d := O.sqrtA ((o.x - me.x) ^ 2 + (o.y - me.y) ^ 2)
        if d ≤ scan_r_prey then
          let score := p_kill / (1 + d)
          if best.2 < score then (some o, score) else best
        else best)
    (none, -1)

/-- The four sequential commit-to-home writes of `step_behavior`
(behaviors.py lines 108-161: the early `eaten >= 3` commit, the
diet-specific step gate (A), the energy gate (B) and the food-completion
gate (C)).  Each write only ever sets `going_home` to true and no gate
condition depends on an earlier write, so the combined effect is the
disjunction of the entry flag with the four gate conditions, computed
here as one flag. -/
def go_home_flag (O : Oracle) (dt : ℚ) (steps_left : ℕ) (me : Creature) : Bool :=
  let diet := pylower me.species.diet
  let eff_speed := me.effective_speed
  let dist_home := O.sqrtA ((me.home.1 - me.x) ^ 2 + (me.home.2 - me.y) ^ 2)
  let steps_required := dist_home / max (eff_speed * dt) (1 / 1000000)
  let gate_a : Bool :=
    if diet = "herbivore" then
      if 3 ≤ me.eaten then true
      else if me.eaten = 2 then decide ((steps_left : ℚ) * 0.82 ≤ steps_required)
      else if me.eaten = 1 then decide ((steps_left : ℚ) * 0.80 ≤ steps_required)
      else false
    else decide ((steps_left : ℚ) * 0.95 ≤ steps_required)
  let t_home := dist_home / max eff_speed (1 / 1000000)
  let move_cost := ENERGY.C_move * me.size ^ 3 * eff_speed ^ 2 * t_home
  let base_cost := ENERGY.C_size * me.size ^ 3 * t_home
  let sense_cost := ENERGY.C_sense * me.sense * t_home
  let need := (move_cost + base_cost + sense_cost) * BEHAV.return_energy_margin
  let gate_b : Bool := decide (me.energy ≤ need)
  let gate_c : Bool := if diet ≠ "herbivore" then decide (2 ≤ me.eaten) else false
  me.going_home || decide (3 ≤ me.eaten) || gate_a || gate_b || gate_c

/-- `step_behavior(world, me, others, dt, steps_left)` from behaviors.py
(lines 92-286): decide the velocity for the current step.  Returns the
creature (whose `going_home`/`heading` the Python code mutates in place),
the velocity vector, and the RNG (consumed only by the wander branch). -/
def step_behavior (O : Oracle) (w : World) (me : Creature) (others : List Creature)
    (dt : ℚ) (steps_left : ℕ) (g : Rng) : Creature × (ℚ × ℚ) × Rng :=
  if me.alive = false then (me, (0, 0), g)
  else
    let diet := pylower me.species.diet
    let me := { me with going_home := go_home_flag O dt steps_left me }
    let eff_speed := me.effective_speed
    let rr := sense_radii me
    let r_food := rr.1
    let r_pred := rr.2.1
    let r_prey := rr.2.2
    let dxh := me.home.1 - me.x
    let dyh := me.home.2 - me.y
    let dist_home := O.sqrtA (dxh ^ 2 + dyh ^ 2)
    let home_now := dist_home ≤ WORLD.home_margin
    let near_home := dist_home ≤ WORLD.home_margin * 1.1
    match find_predator me others r_pred with
    | some p =>
      if home_now ∨ (near_home ∧ me.going_home = true) then
        if ¬ home_now then
          (me, vmul (vunit O (me.home.1 - me.x, me.home.2 - me.y)) eff_speed, g)
        else (me, (0, 0), g)
      else
        (me, vmul (vunit O (me.x - p.x, me.y - p.y)) eff_speed, g)
    | none =>
      if me.going_home = true then
        let v_desired :=
          if 0 < steps_left then
            let v_req := dist_home / max ((steps_left : ℚ) * dt * 0.98) (1 / 1000000)
            min eff_speed (v_req * 1.25)
          else eff_speed
        (me, vmul (vunit O (me.home.1 - me.x, me.home.2 - me.y)) v_desired, g)
      else
        let avoid_out : Option (ℚ × ℚ) :=
          if diet = "herbivore"
              ∨ (diet = "omnivore" ∧ me.prey_kills_today = 0 ∧ me.eaten = 0) then
            let scan_r := r_pred * AVOID_RADIUS_MULT
            let acc := avoid_scan me others scan_r
            if AVOID_MIN_COUNT ≤ acc.2.2 then
              let cx := acc.1 / (acc.2.2 : ℚ)
              let cy := acc.2.1 / (acc.2.2 : ℚ)
              let a := vunit O (me.x - cx, me.y - cy)
              if a.1 ≠ 0 ∨ a.2 ≠ 0 then some (vmul a eff_speed) else none
            else none
          else none
        match avoid_out with
        | some v => (me, v, g)
        | none =>
          let forage_out : Option (ℚ × ℚ) :=
            if diet = "herbivore" ∨ diet = "omnivore" then
              let home_bias : ℚ :=
                if diet = "herbivore" ∧ 1 ≤ me.eaten then
                  if me.eaten = 1 then 0.35 else 0.45
                else 0
              match nearest_food_within w me.x me.y r_food with
              | some f =>
                let to_food := vunit O (f.x - me.x, f.y - me.y)
                if 0 < home_bias then
                  let to_home := vunit O (me.home.1 - me.x, me.home.2 - me.y)
                  some (vmul (vunit O (vadd (vmul to_food (1 - home_bias))
                    (vmul to_home home_bias))) eff_speed)
                else some (vmul to_food eff_speed)
              | none => none
            else none
          match forage_out with
          | some v => (me, v, g)
          | none =>
            let hunt_out : Option (ℚ × ℚ) :=
              if diet = "carnivore" ∨ diet = "omnivore" then
                if wantHunt me = true then
                  let hungry := HUNGRY_STREAK_FOR_BRAVERY ≤ me.hungry_streak
                  let scan_r_prey :=
                    r_prey * (if hungry then HUNGRY_PREY_RADIUS_MULT else 1)
                  let min_score := if hungry then HUNGRY_MIN_SCORE else BASE_MIN_SCORE
                  let hs := hunt_scan O me others scan_r_prey hungry
                  match hs.1 with
                  | some cand =>
                    if min_score ≤ hs.2 then
                      some (vmul (vunit O (cand.x - me.x, cand.y - me.y)) eff_speed)
                    else none
                  | none => none
                else none
              else none
            match hunt_out with
            | some v => (me, v, g)
            | none =>
              let q := uniform O (-BEHAV.wander_turn_rate) BEHAV.wander_turn_rate g
              let me := { me with heading := me.heading + q.1 * dt }
              let vmag := BEHAV.wander_speed_fraction * eff_speed
              (me, (O.cosA me.heading * vmag, O.sinA me.heading * vmag), q.2)

/-! ## Day orchestration (`evo_sim/sim/engine.py`, lines 107-139) -/

/-- Decide phase of one tick (engine.py lines 114-122): walk the
population in order, computing each living creature's clamped velocity
with `step_behavior` (which may update `going_home`/`heading` in place)
and recording `(id, 0, 0)` for dead ones. -/
def decide_go (O : Oracle) (w : World) (dt : ℚ) (sl : ℕ) :
    ℕ → ℕ → List Creature → List (ℤ × ℚ × ℚ) → Rng →
    List Creature × List (ℤ × ℚ × ℚ) × Rng
  | 0, _, l, acc, g => (l, acc, g)
  | fuel + 1, i, l, acc, g =>
    match l.get? i with
    | none => (l, acc, g)
    | some me =>
      if me.alive = false then
        decide_go O w dt sl fuel (i + 1) l (acc ++ [(me.id, 0, 0)]) g
      else
        let r := step_behavior O w me l dt sl g
        let me' := r.1
        let vc := clamp_speed O r.2.1.1 r.2.1.2 me'.effective_speed
        decide_go O w dt sl fuel (i + 1) (l.set i me')
          (acc ++ [(me'.id, vc.1, vc.2)]) r.2.2

/-- Lookup of `id_map[cid]` (engine.py line 124): the dict comprehension
keeps the last creature carrying a given id, and mutating it updates that
list entry. -/
def update_last_by_id (l : List Creature) (cid : ℤ) (f : Creature → Creature) :
    List Creature :=
  match (l.enum.filter (fun p => p.2.id = cid)).getLast? with
  | none => l
  | some ji => l.set ji.1 (f ji.2)

/-- Apply phase for one velocity entry (engine.py lines 125-133): skip
dead creatures, charge energy (possibly fatal), and move survivors. -/
def apply_one (O : Oracle) (w : World) (dt vx vy : ℚ) (me : Creature) : Creature :=
  if me.alive = false then me
  else
    let move_speed := O.sqrtA (vx ^ 2 + vy ^ 2)
    let me1 := apply_energy me move_speed dt
    if me1.alive = false then me1
    else apply_motion w me1 vx vy dt

/-- Consume phase of one tick (engine.py lines 135-139): predation first,
then plant food, per living creature in order. -/
def consume_go (O : Oracle) : ℕ → ℕ → World → List Creature → Rng →
    World × List Creature × Rng
  | 0, _, w, l, g => (w, l, g)
  | fuel + 1, i, w, l, g =>
    match l.get? i with
    | none => (w, l, g)
    | some me =>
      if me.alive = false then consume_go O fuel (i + 1) w l g
      else
        let cp := consume_prey_if_reached O g l i
        match cp.2.get? i with
        | none => consume_go O fuel (i + 1) w cp.2 cp.1
        | some me1 =>
          let r := consume_food_if_reached O w me1
          consume_go O fuel (i + 1) r.1 (cp.2.set i r.2) cp.1

/-- One iteration of the step loop of `simulate_day` (engine.py lines
112-139). -/
def tick (O : Oracle) (w : World) (l : List Creature) (sl : ℕ) (g : Rng) :
    World × List Creature × Rng :=
  let d := decide_go O w WORLD.dt sl l.length 0 l [] g
  let l2 := d.2.1.foldl
    (fun acc v => update_last_by_id acc v.1 (apply_one O w WORLD.dt v.2.1 v.2.2)) d.1
  consume_go O l2.length 0 w l2 d.2.2

/-- The tick loop of `simulate_day`, running `n` remaining steps
(`steps_left` of the first executed tick is `n`). -/
def sim_steps (O : Oracle) : ℕ → World → List Creature → Rng →
    World × List Creature × Rng
  | 0, w, l, g => (w, l, g)
  | n + 1, w, l, g =>
    let r := tick O w l (n + 1) g
    sim_steps O n r.1 r.2.1 r.2.2

/-- `simulate_day(world, population)` from engine.py (lines 107-139):
respawn food, reset and place the population, then run the fixed number
of ticks. -/
def simulate_day (O : Oracle) (P : PredHomeConfig) (w : World) (l : List Creature)
    (g : Rng) : World × List Creature × Rng :=
  let f := spawn_food_uniform O w WORLD.n_food g
  let s := spawn_creatures_at_edges O P f.1 l f.2
  sim_steps O WORLD.day_steps f.1 s.1 s.2

/-! ## Claim C3 -/

/-- Oracle used for the C3 evaluation: square root is exact on the one
squared distance that occurs (1), and the raw stream is constantly 1/2. -/
def OW3 : Oracle :=
  { sqrtA := fun q => if q = 1 then 1 else 0,
    cosA := fun _ => 0, sinA := fun _ => 0, gen := fun _ _ => 1/2 }

/-- A hungry carnivore (hunger streak 1) that already made its one kill
today. -/
def hungryPredC3 : Creature :=
  { id := 1,
    species := { id := 3, name := "Viridian", color := (60, 200, 120),
                 aggression := 0.65, bravery := 0.40, metabolism := 1.05,
                 diet := "carnivore" },
    speed := 1, size := 2, sense := 10, x := 0, y := 0, home := (0, 0),
    energy := 100, eaten := 1, hungry_streak := 1, prey_kills_today := 1 }

/-- An eligible herbivore standing within the predator's bite radius. -/
def preyC3 : Creature :=
  { id := 2,
    species := { id := 2, name := "Amber", color := (240, 160, 60),
                 aggression := 0.10, bravery := 0.80, metabolism := 0.95,
                 diet := "herbivore" },
    speed := 1, size := 1, sense := 10, x := 1, y := 0, home := (1, 0),
    energy := 100 }

/-- The same predator before its first kill of the day. -/
def predNoKillC3 : Creature := { hungryPredC3 with prey_kills_today := 0 }

/-- C3 fails on the code: the per-day kill cap is a hard cap of 1 and is
never relaxed to 2.  For a carnivore with `hungry_streak = 1` and
`prey_kills_today = 1`, facing an eligible prey within bite radius, the
behavior policy's hunt gate is off and `_resolve_attack` returns with no
state change — while the identical predator with zero kills today kills
the same prey on the same random draw. -/
theorem C3_kill_cap_is_hard :
    hungryPredC3.hungry_streak = 1
    ∧ hungryPredC3.prey_kills_today = 1
    ∧ can_eat hungryPredC3 preyC3 = true
    ∧ OW3.sqrtA ((preyC3.x - hungryPredC3.x) ^ 2 + (preyC3.y - hungryPredC3.y) ^ 2)
        ≤ bite_radius hungryPredC3
    ∧ wantHunt hungryPredC3 = false
    ∧ resolve_attack OW3 (Rng.reseed 42) hungryPredC3 preyC3
        = (Rng.reseed 42, hungryPredC3, preyC3)
    ∧ ((resolve_attack OW3 (Rng.reseed 42) predNoKillC3 preyC3).2.1).eaten
        = predNoKillC3.eaten + 1
    ∧ ((resolve_attack OW3 (Rng.reseed 42) predNoKillC3 preyC3).2.2).alive = false := by
  have hce : can_eat hungryPredC3 preyC3 = true := by
    simp only [can_eat, hungryPredC3, preyC3]
    rw [if_neg (by decide), if_neg (by decide), if_pos (by decide)]
    norm_num
  refine ⟨rfl, rfl, hce, ?_, ?_, ?_, ?_, ?_⟩
  · have hd2 : (preyC3.x - hungryPredC3.x) ^ 2 + (preyC3.y - hungryPredC3.y) ^ 2 = 1 := by
      norm_num [preyC3, hungryPredC3]
    rw [hd2]
    show (if (1:ℚ) = 1 then (1:ℚ) else 0) ≤ bite_radius hungryPredC3
    rw [if_pos rfl]
    norm_num [bite_radius, hungryPredC3, WORLD]
  · simp only [wantHunt, hungryPredC3]
    norm_num
  · simp only [resolve_attack]
    rw [if_neg (by norm_num [hungryPredC3, preyC3]), if_pos (by norm_num [hungryPredC3])]
  · simp only [resolve_attack]
    rw [if_neg (by norm_num [predNoKillC3, hungryPredC3, preyC3]),
        if_neg (by norm_num [predNoKillC3, hungryPredC3]),
        if_neg ?hcan, if_neg ?hcarn, if_pos ?hdraw]
    case hcan =>
      simp only [predNoKillC3]
      simp only [can_eat, hungryPredC3, preyC3]
      rw [if_neg (by decide), if_neg (by decide), if_pos (by decide)]
      norm_num
    case hcarn =>
      intro h
      exact absurd h.1 (by decide)
    case hdraw =>
      show (uniform OW3 0 1 (Rng.reseed 42)).1
        ≤ kill_probability predNoKillC3 preyC3
      simp only [uniform, Rng.next, OW3, kill_probability, predNoKillC3,
        hungryPredC3, preyC3, RISK]
      norm_num
  · simp only [resolve_attack]
    rw [if_neg (by norm_num [predNoKillC3, hungryPredC3, preyC3]),
        if_neg (by norm_num [predNoKillC3, hungryPredC3]),
        if_neg ?hcan2, if_neg ?hcarn2, if_pos ?hdraw2]
    case hcan2 =>
      simp only [predNoKillC3]
      simp only [can_eat, hungryPredC3, preyC3]
      rw [if_neg (by decide), if_neg (by decide), if_pos (by decide)]
      norm_num
    case hcarn2 =>
      intro h
      exact absurd h.1 (by decide)
    case hdraw2 =>
      show (uniform OW3 0 1 (Rng.reseed 42)).1
        ≤ kill_probability predNoKillC3 preyC3
      simp only [uniform, Rng.next, OW3, kill_probability, predNoKillC3,
        hungryPredC3, preyC3, RISK]
      norm_num

/-! ## Claim C9 -/

/-- C9: a successful attack in `_resolve_attack` increments the predator's
`eaten` counter by exactly 1 together with `prey_kills_today` (prey kills
count as food), and in `end_of_day_selection` a creature with `eaten = 1`
has its hunger streak reset to 0 and survives exactly when it is within
home-margin of its home. -/
theorem C9_kill_counts_as_food :
    (∀ (O : Oracle) (g : Rng) (pred prey : Creature),
      pred.alive = true → prey.alive = true → pred.prey_kills_today = 0 →
      can_eat pred prey = true →
      (pylower prey.species.diet = "carnivore" → 1 ≤ pred.hungry_streak) →
      (uniform O 0 1 g).1 ≤ kill_probability pred prey →
      ((resolve_attack O g pred prey).2.1.eaten = pred.eaten + 1
        ∧ (resolve_attack O g pred prey).2.1.prey_kills_today = 1
        ∧ (resolve_attack O g pred prey).2.2.alive = false))
    ∧ (∀ (O : Oracle) (c : Creature), c.alive = true → c.eaten = 1 →
      ((selOne O c).1.hungry_streak = 0
        ∧ ((selOne O c).1.alive = true
            ↔ Creature.at_home O (streakStep c) WORLD.home_margin = true))) := by
  constructor
  · intro O g pred prey h1 h2 h3 h4 h5 h6
    simp only [resolve_attack]
    rw [if_neg (by simp [h1, h2]), if_neg (by omega), if_neg (by simp [h4]),
        if_neg ?hcarn, if_pos h6]
    case hcarn =>
      intro hk
      have := h5 hk.1
      omega
    exact ⟨rfl, by simp [h3], rfl⟩
  · intro O c h1 h2
    have h0 : c.eaten ≠ 0 := by omega
    have hs : (streakStep c).hungry_streak = 0 := by
      simp only [streakStep, if_neg h0]
    have h2' : ¬ 2 ≤ (streakStep c).hungry_streak := by omega
    have he : (streakStep c).eaten = c.eaten := by
      simp only [streakStep]; split_ifs <;> rfl
    have ha : (streakStep c).alive = true := by
      simp only [streakStep]; split_ifs <;> exact h1
    have h3 : 1 ≤ c.eaten := by omega
    constructor
    · simp only [selOne, if_neg h2', he, if_pos h3]
      split_ifs <;> exact hs
    · by_cases hm : Creature.at_home O (streakStep c) WORLD.home_margin = true
      · have hm' : ¬ (Creature.at_home O (streakStep c) WORLD.home_margin = false) := by
          rw [hm]; simp
        simp only [selOne, if_neg h2', he, if_pos h3, if_neg hm']
        constructor
        · intro _; exact hm
        · intro _; split_ifs <;> exact ha
      · have hm' : Creature.at_home O (streakStep c) WORLD.home_margin = false := by
          simpa using hm
        simp only [selOne, if_neg h2', he, if_pos h3, if_pos hm']
        constructor
        · intro hcontra; simpa using hcontra
        · intro hcontra; exact absurd hcontra hm

/-- Oracle for the selection half of the C9 witness: the square root is
the identity, which makes the concrete distance (2441) exceed the home
margin. -/
def OW9 : Oracle :=
  { sqrtA := fun q => q, cosA := fun _ => 0, sinA := fun _ => 0,
    gen := fun _ _ => 1/2 }

/-- Witness for C9: a carnivore of size 2 with no kill yet today kills a
herbivore of size 1 on a raw draw of 1/2 (kill probability 0.95), and a
creature with `eaten = 1` away from home does not survive selection. -/
theorem C9_kill_counts_as_food_witness :
    ((resolve_attack OW3 (Rng.reseed 7) predNoKillC3 preyC3).2.1.eaten
        = predNoKillC3.eaten + 1
      ∧ (resolve_attack OW3 (Rng.reseed 7) predNoKillC3 preyC3).2.1.prey_kills_today = 1)
    ∧ ((selOne OW9 { preyC3 with eaten := 1, x := 30, y := 40 }).1.hungry_streak = 0
      ∧ (selOne OW9 { preyC3 with eaten := 1, x := 30, y := 40 }).1.alive = false) := by
  have hcan : can_eat predNoKillC3 preyC3 = true := by
    simp only [predNoKillC3]
    simp only [can_eat, hungryPredC3, preyC3]
    rw [if_neg (by decide), if_neg (by decide), if_pos (by decide)]
    norm_num
  have part1 := (C9_kill_counts_as_food.1 OW3 (Rng.reseed 7) predNoKillC3 preyC3
    (by decide) (by decide) (by decide) hcan
    (by intro hc; exact absurd hc (by decide))
    (by
      simp only [uniform, Rng.next, OW3, kill_probability, predNoKillC3,
        hungryPredC3, preyC3, RISK]
      norm_num))
  have part2 := (C9_kill_counts_as_food.2 OW9
    { preyC3 with eaten := 1, x := 30, y := 40 } (by decide) (by decide))
  refine ⟨⟨part1.1, part1.2.1⟩, part2.1, ?_⟩
  have hm : Creature.at_home OW9
      (streakStep { preyC3 with eaten := 1, x := 30, y := 40 })
      WORLD.home_margin = false := by
    simp only [Creature.at_home, streakStep, preyC3, WORLD, OW9]
    norm_num
  have := part2.2
  rw [hm] at this
  rcases h : (selOne OW9 { preyC3 with eaten := 1, x := 30, y := 40 }).1.alive with _ | _
  · rfl
  · exact absurd (this.mp h) (by decide)

/-! ## Claim C4: helper lemmas -/

/-- Charging energy never moves the creature. -/
lemma apply_energy_x (me : Creature) (ms dt : ℚ) : (apply_energy me ms dt).x = me.x := by
  simp only [apply_energy]; split_ifs <;> rfl

/-- Charging energy never moves the creature. -/
lemma apply_energy_y (me : Creature) (ms dt : ℚ) : (apply_energy me ms dt).y = me.y := by
  simp only [apply_energy]; split_ifs <;> rfl

/-- Motion never changes the alive flag. -/
lemma apply_motion_alive (w : World) (me : Creature) (vx vy dt : ℚ) :
    (apply_motion w me vx vy dt).alive = me.alive := rfl

/-- The energy charge is non-negative for a well-formed creature. -/
lemma apply_energy_le (me : Creature) (ms dt : ℚ) (hsz : 0 ≤ me.size)
    (hsn : 0 ≤ me.sense) (hmet : 0 ≤ me.species.metabolism) (hdt : 0 ≤ dt) :
    (apply_energy me ms dt).energy ≤ me.energy := by
  have h3 : (0 : ℚ) ≤ me.size ^ 3 := pow_nonneg hsz 3
  have hms : (0 : ℚ) ≤ ms ^ 2 := sq_nonneg ms
  have hbase : (0 : ℚ) ≤ ENERGY.C_size * me.size ^ 3 + ENERGY.C_sense * me.sense := by
    have c1 : (0 : ℚ) ≤ ENERGY.C_size := by norm_num [ENERGY]
    have c2 : (0 : ℚ) ≤ ENERGY.C_sense := by norm_num [ENERGY]
    positivity
  have hmove : (0 : ℚ) ≤ ENERGY.C_move * me.size ^ 3 * ms ^ 2 := by
    have c3 : (0 : ℚ) ≤ ENERGY.C_move := by norm_num [ENERGY]
    positivity
  have hleak : (0 : ℚ) ≤
      (if 0 < me.injury_days_left then RISK.injury_energy_leak_per_time else 0) := by
    split_ifs
    · norm_num [RISK]
    · exact le_refl 0
  have hchg : (0 : ℚ) ≤
      ((ENERGY.C_size * me.size ^ 3 + ENERGY.C_sense * me.sense
          + ENERGY.C_move * me.size ^ 3 * ms ^ 2) * me.species.metabolism
        + (if 0 < me.injury_days_left then RISK.injury_energy_leak_per_time else 0)) * dt := by
    apply mul_nonneg _ hdt
    exact add_nonneg (mul_nonneg (by linarith) hmet) hleak
  simp only [apply_energy]
  split_ifs at hchg ⊢ <;> dsimp only <;> linarith

/-- Attack resolution never raises the predator's energy and never
changes the prey's. -/
lemma resolve_attack_energy (O : Oracle) (g : Rng) (pred prey : Creature) :
    (resolve_attack O g pred prey).2.1.energy ≤ pred.energy
    ∧ (resolve_attack O g pred prey).2.2.energy = prey.energy := by
  have h8 : (0 : ℚ) ≤ RISK.energy_loss_on_fail := by norm_num [RISK]
  simp only [resolve_attack]
  rcases Classical.em (pred.alive = false ∨ prey.alive = false) with c1 | c1
  · rw [if_pos c1]; exact ⟨le_refl _, rfl⟩
  rw [if_neg c1]
  rcases Classical.em (1 ≤ pred.prey_kills_today) with c2 | c2
  · rw [if_pos c2]; exact ⟨le_refl _, rfl⟩
  rw [if_neg c2]
  rcases Classical.em (can_eat pred prey = false) with c3 | c3
  · rw [if_pos c3]; exact ⟨le_refl _, rfl⟩
  rw [if_neg c3]
  rcases Classical.em (pylower prey.species.diet = "carnivore" ∧ pred.hungry_streak < 1)
    with c4 | c4
  · rw [if_pos c4]; exact ⟨le_refl _, rfl⟩
  rw [if_neg c4]
  rcases Classical.em ((uniform O 0 1 g).1 ≤ kill_probability pred prey) with c5 | c5
  · rw [if_pos c5]; exact ⟨le_refl _, rfl⟩
  rw [if_neg c5]
  rcases Classical.em (pred.energy - RISK.energy_loss_on_fail ≤ 0) with c6 | c6
  · rw [if_pos c6]
    exact ⟨by dsimp only; linarith, rfl⟩
  rw [if_neg c6]
  constructor
  · split_ifs <;> dsimp only <;> linarith
  · split_ifs <;> rfl

/-! ## Claim C4 -/

/-- C4: within a day, no operation of the tick loop raises any creature's
energy — the behavior decision leaves energy unchanged, the per-tick
charge only subtracts (for a creature with non-negative size, sense and
metabolism and non-negative `dt`), attack resolution only subtracts from
the predator and leaves the prey's energy unchanged, and consuming food
or prey adds no energy — and when the per-tick charge drives energy to
`<= 0` the creature is marked dead in that update, with no motion applied
to it in the same tick. -/
theorem C4_energy_non_increasing :
    (∀ (O : Oracle) (w : World) (me : Creature) (others : List Creature)
        (dt : ℚ) (sl : ℕ) (g : Rng),
      (step_behavior O w me others dt sl g).1.energy = me.energy)
    ∧ (∀ (me : Creature) (ms dt : ℚ),
      0 ≤ me.size → 0 ≤ me.sense → 0 ≤ me.species.metabolism → 0 ≤ dt →
      (apply_energy me ms dt).energy ≤ me.energy)
    ∧ (∀ (me : Creature) (ms dt : ℚ),
      (apply_energy me ms dt).energy ≤ 0 → (apply_energy me ms dt).alive = false)
    ∧ (∀ (O : Oracle) (w : World) (dt vx vy : ℚ) (me : Creature),
      me.alive = true → (apply_one O w dt vx vy me).alive = false →
      ((apply_one O w dt vx vy me).x = me.x ∧ (apply_one O w dt vx vy me).y = me.y))
    ∧ (∀ (O : Oracle) (g : Rng) (pred prey : Creature),
      (resolve_attack O g pred prey).2.1.energy ≤ pred.energy
      ∧ (resolve_attack O g pred prey).2.2.energy = prey.energy)
    ∧ (∀ (O : Oracle) (w : World) (me : Creature),
      (consume_food_if_reached O w me).2.energy = me.energy)
    ∧ (∀ (O : Oracle) (g : Rng) (l : List Creature) (i j : ℕ) (cj : Creature),
      (consume_prey_if_reached O g l i).2.get? j = some cj →
      ∃ c0, l.get? j = some c0 ∧ cj.energy ≤ c0.energy) := by
  refine ⟨?_, apply_energy_le, ?_, ?_, resolve_attack_energy, ?_, ?_⟩
  · intro O w me others dt sl g
    simp only [step_behavior]
    repeat' split
    all_goals rfl
  · intro me ms dt h
    simp only [apply_energy] at h ⊢
    split_ifs at h ⊢
    any_goals rfl
    all_goals dsimp only at h
    all_goals exact absurd h (by assumption)
  · intro O w dt vx vy me h1 h2
    simp only [apply_one] at h2 ⊢
    rw [if_neg (by simp [h1])] at h2 ⊢
    split_ifs at h2 ⊢ with hc
    · exact ⟨apply_energy_x me _ dt, apply_energy_y me _ dt⟩
    · rw [apply_motion_alive] at h2
      simp only [Bool.not_eq_false] at hc
      rw [hc] at h2
      exact absurd h2 (by simp)
  · intro O w me
    simp only [consume_food_if_reached]
    split_ifs
    · rfl
    · rfl
    · rcases h : nearest_food_within w me.x me.y (bite_radius me) with _ | f
      · rfl
      · dsimp only
        split_ifs <;> rfl
  · intro O g l i j cj hj
    simp only [consume_prey_if_reached] at hj
    rcases hgi : l.get? i with _ | me
    · rw [hgi] at hj
      exact ⟨cj, hj, le_refl _⟩
    · rw [hgi] at hj
      dsimp only at hj
      split_ifs at hj with hal
      · exact ⟨cj, hj, le_refl _⟩
      · rcases hft : find_prey_target me l (bite_radius me) with _ | t
        · rw [hft] at hj
          exact ⟨cj, hj, le_refl _⟩
        · rw [hft] at hj
          dsimp only at hj
          rcases hgt : l.get? t with _ | tgt
          · rw [hgt] at hj
            exact ⟨cj, hj, le_refl _⟩
          · rw [hgt] at hj
            dsimp only at hj
            split_ifs at hj with hdist
            · -- the attack happened: the list is l with i and t overwritten
              rcases resolve_attack_energy O g me tgt with ⟨hpe, hqe⟩
              by_cases hjt : t = j
              · subst hjt
                rw [List.get?_set_eq] at hj
                rcases hgt2 : (l.set i (resolve_attack O g me tgt).2.1).get? t with _ | z
                · rw [hgt2] at hj
                  exact absurd hj (by simp)
                · rw [hgt2] at hj
                  simp at hj
                  exact ⟨tgt, hgt, by rw [← hj]; exact le_of_eq hqe⟩
              · rw [List.get?_set_ne _ _ hjt] at hj
                by_cases hji : i = j
                · subst hji
                  rw [List.get?_set_eq, hgi] at hj
                  simp at hj
                  exact ⟨me, hgi, by rw [← hj]; exact hpe⟩
                · rw [List.get?_set_ne _ _ hji] at hj
                  exact ⟨cj, hj, le_refl _⟩
            · exact ⟨cj, hj, le_refl _⟩


/-- Concrete omnivore used by the C4 witness. -/
def cW4 : Creature :=
  { id := 11,
    species := { id := 1, name := "Azure", color := (70, 140, 240),
                 aggression := 0.35, bravery := 0.55, metabolism := 1.00,
                 diet := "omnivore" },
    speed := 1, size := 1, sense := 10, x := 20, y := 20, home := (20, 20),
    energy := 100 }

/-- A creature whose remaining energy is below one tick's charge. -/
def cW4dead : Creature :=
  { id := 12,
    species := { id := 2, name := "Amber", color := (240, 160, 60),
                 aggression := 0.10, bravery := 0.80, metabolism := 0.95,
                 diet := "herbivore" },
    speed := 1, size := 1, sense := 10, x := 20, y := 20, home := (20, 20),
    energy := 1/100 }

/-- Default-sized world used by witnesses. -/
def wW4 : World := {}

/-- Witness for C4: one tick's energy charge on a concrete creature only
subtracts, and a creature whose energy falls to `<= 0` in the apply phase
is dead with its position untouched. -/
theorem C4_energy_non_increasing_witness :
    (0 ≤ cW4.size ∧ 0 ≤ cW4.sense ∧ 0 ≤ cW4.species.metabolism ∧ 0 ≤ (1 : ℚ)
      ∧ (apply_energy cW4 1 1).energy ≤ cW4.energy)
    ∧ (cW4dead.alive = true
      ∧ (apply_one OW1 wW4 1 0 0 cW4dead).alive = false
      ∧ (apply_one OW1 wW4 1 0 0 cW4dead).x = cW4dead.x
      ∧ (apply_one OW1 wW4 1 0 0 cW4dead).y = cW4dead.y) := by
  constructor
  · refine ⟨by norm_num [cW4], by norm_num [cW4], by norm_num [cW4], by norm_num, ?_⟩
    exact C4_energy_non_increasing.2.1 cW4 1 1 (by norm_num [cW4]) (by norm_num [cW4])
      (by norm_num [cW4]) (by norm_num)
  · have halive : (apply_one OW1 wW4 1 0 0 cW4dead).alive = false := by
      norm_num [apply_one, apply_energy, OW1, cW4dead, ENERGY, RISK]
    have hxy := C4_energy_non_increasing.2.2.2.1 OW1 wW4 1 0 0 cW4dead rfl halive
    exact ⟨rfl, halive, hxy.1, hxy.2⟩

/-! ## Claims C5 and C6 -/

/-- A point on the boundary of the world rectangle — the codomain of
`_random_edge_point` (world.py lines 30-38). -/
def on_edge (w : World) (p : ℚ × ℚ) : Prop :=
  p.1 = 0 ∨ p.1 = w.width ∨ p.2 = 0 ∨ p.2 = w.height

/-- `_random_edge_point` always yields a boundary point. -/
lemma random_edge_point_on_edge (O : Oracle) (w : World) (g : Rng) :
    on_edge w (random_edge_point O w g).1 := by
  simp only [random_edge_point, on_edge]
  split_ifs
  · exact Or.inl rfl
  · exact Or.inr (Or.inl rfl)
  · exact Or.inr (Or.inr (Or.inr rfl))
  · exact Or.inr (Or.inr (Or.inl rfl))

/-- C5 (amended): `spawn_creatures_at_edges` applies the center-point
policy to every creature, independently of its class (diet): position and
home are the `_predator_center_point` output; the creatures are processed
in order, each consuming the RNG in turn. -/
theorem C5_center_policy_for_all (O : Oracle) (P : PredHomeConfig) (w : World)
    (c : Creature) (g : Rng) :
    (spawn_one O P w c g).1.home = (predator_center_point O P w g).1
    ∧ (spawn_one O P w c g).1.x = (predator_center_point O P w g).1.1
    ∧ (spawn_one O P w c g).1.y = (predator_center_point O P w g).1.2
    ∧ (∀ c2 : Creature, (spawn_one O P w c2 g).1.home = (spawn_one O P w c g).1.home
        ∧ (spawn_one O P w c2 g).1.x = (spawn_one O P w c g).1.x
        ∧ (spawn_one O P w c2 g).1.y = (spawn_one O P w c g).1.y)
    ∧ (∀ rest : List Creature,
        spawn_creatures_at_edges O P w (c :: rest) g
          = ((spawn_one O P w c g).1
               :: (spawn_creatures_at_edges O P w rest (spawn_one O P w c g).2).1,
             (spawn_creatures_at_edges O P w rest (spawn_one O P w c g).2).2)) := by
  have hone : ∀ c2 : Creature,
      (spawn_one O P w c2 g).1.home = (predator_center_point O P w g).1
      ∧ (spawn_one O P w c2 g).1.x = (predator_center_point O P w g).1.1
      ∧ (spawn_one O P w c2 g).1.y = (predator_center_point O P w g).1.2 := by
    intro c2
    simp only [spawn_one]
    split_ifs <;> exact ⟨rfl, rfl, rfl⟩
  refine ⟨(hone c).1, (hone c).2.1, (hone c).2.2, ?_, ?_⟩
  · intro c2
    exact ⟨(hone c2).1.trans (hone c).1.symm,
           (hone c2).2.1.trans (hone c).2.1.symm,
           (hone c2).2.2.trans (hone c).2.2.symm⟩
  · intro rest
    rfl

/-- Center-policy configuration with a zero ring radius: the center point
is the exact world center. -/
def P0 : PredHomeConfig := { center_ring_radius := 0, ring_jitter := 0, spawn_at_home := true }

/-- A herbivore — per the spec's "edge-dwelling class" — handed to the
spawner in the C5 counterexample. -/
def edgeHerbC5 : Creature :=
  { id := 21,
    species := { id := 2, name := "Amber", color := (240, 160, 60),
                 aggression := 0.10, bravery := 0.80, metabolism := 0.95,
                 diet := "herbivore" },
    speed := 1, size := 1, sense := 10, x := 3, y := 4, home := (3, 4),
    energy := 100 }

/-- C5 counterexample: the herbivore-edge branch of
`spawn_creatures_at_edges` is commented out in the source, so a herbivore
is placed at the world center — an interior point, not a point on a
rectangle edge. -/
theorem C5_no_edge_spawn_counterexample :
    pylower edgeHerbC5.species.diet = "herbivore"
    ∧ (spawn_creatures_at_edges OW1 P0 wW4 [edgeHerbC5] (Rng.reseed 42)).1.map
        (fun c => c.home) = [((125 : ℚ), (125 : ℚ))]
    ∧ ¬ on_edge wW4 ((125 : ℚ), (125 : ℚ)) := by
  refine ⟨by decide, ?_, ?_⟩
  · have hc : (predator_center_point OW1 P0 wW4 (Rng.reseed 42)).1
        = ((125 : ℚ), (125 : ℚ)) := by
      simp only [predator_center_point, P0, wW4]
      rw [if_pos (by norm_num)]
      norm_num [WORLD]
    have h1 : (spawn_one OW1 P0 wW4 edgeHerbC5 (Rng.reseed 42)).1.home
        = ((125 : ℚ), (125 : ℚ)) := by
      rw [(C5_center_policy_for_all OW1 P0 wW4 edgeHerbC5 (Rng.reseed 42)).1, hc]
    have hlist : (spawn_creatures_at_edges OW1 P0 wW4 [edgeHerbC5] (Rng.reseed 42)).1
        = [(spawn_one OW1 P0 wW4 edgeHerbC5 (Rng.reseed 42)).1] := rfl
    rw [hlist, List.map_cons, List.map_nil, h1]
  · simp only [on_edge, wW4]
    norm_num [WORLD]

/-- C6: `spawn_creatures_at_edges` resets every creature's per-day state
(energy to base, `eaten = 0`, `alive`, `going_home = false`,
`prey_kills_today = 0`, `target = none`) and ticks the injury countdown:
a positive countdown is decremented by exactly one, and the speed
multiplier is reset to 1 exactly when the countdown reaches 0.  The last
conjunct identifies each output creature as the `spawn_one` image of the
input creature at the same position of the list. -/
theorem C6_spawn_resets (O : Oracle) (P : PredHomeConfig) (w : World)
    (c : Creature) (g : Rng) :
    ((spawn_one O P w c g).1.energy = ENERGY.base_energy
      ∧ (spawn_one O P w c g).1.eaten = 0
      ∧ (spawn_one O P w c g).1.alive = true
      ∧ (spawn_one O P w c g).1.going_home = false
      ∧ (spawn_one O P w c g).1.target = none
      ∧ (spawn_one O P w c g).1.prey_kills_today = 0)
    ∧ (0 < c.injury_days_left →
        (spawn_one O P w c g).1.injury_days_left = c.injury_days_left - 1)
    ∧ (c.injury_days_left = 1 → (spawn_one O P w c g).1.injury_speed_mult = 1.0)
    ∧ (2 ≤ c.injury_days_left →
        (spawn_one O P w c g).1.injury_speed_mult = c.injury_speed_mult)
    ∧ (c.injury_days_left ≤ 0 →
        (spawn_one O P w c g).1.injury_days_left = c.injury_days_left
        ∧ (spawn_one O P w c g).1.injury_speed_mult = c.injury_speed_mult)
    ∧ (∀ (pop : List Creature) (g0 : Rng) (i : ℕ) (ci : Creature),
        (spawn_creatures_at_edges O P w pop g0).1.get? i = some ci →
        ∃ c0 g1, pop.get? i = some c0 ∧ ci = (spawn_one O P w c0 g1).1) := by
  refine ⟨?_, ?_, ?_, ?_, ?_, ?_⟩
  · simp only [spawn_one]
    try dsimp only
    split_ifs <;> exact ⟨rfl, rfl, rfl, rfl, rfl, rfl⟩
  · intro h
    simp only [spawn_one]
    try dsimp only
    split_ifs <;> (try dsimp only at *) <;> first | rfl | omega | (exfalso; omega)
  · intro h
    simp only [spawn_one]
    try dsimp only
    split_ifs <;> (try dsimp only at *) <;> first | rfl | (exfalso; omega)
  · intro h
    simp only [spawn_one]
    try dsimp only
    split_ifs <;> (try dsimp only at *) <;> first | rfl | (exfalso; omega)
  · intro h
    simp only [spawn_one]
    try dsimp only
    split_ifs <;> (try dsimp only at *) <;> first | exact ⟨rfl, rfl⟩ | (exfalso; omega)
  · intro pop
    induction pop with
    | nil =>
      intro g0 i ci hci
      simp [spawn_creatures_at_edges] at hci
    | cons hd tl ih =>
      intro g0 i ci hci
      rcases i with _ | i
      · simp only [spawn_creatures_at_edges] at hci
        simp only [List.get?] at hci
        exact ⟨hd, g0, rfl, (Option.some.inj hci).symm⟩
      · simp only [spawn_creatures_at_edges] at hci
        simp only [List.get?] at hci
        rcases ih (spawn_one O P w hd g0).2 i ci hci with ⟨c0, g1, h1, h2⟩
        exact ⟨c0, g1, h1, h2⟩

/-- Concrete injured creature used by the C6 witness. -/
def cW6 : Creature :=
  { id := 31,
    species := { id := 1, name := "Azure", color := (70, 140, 240),
                 aggression := 0.35, bravery := 0.55, metabolism := 1.00,
                 diet := "omnivore" },
    speed := 1, size := 1, sense := 10, x := 3, y := 4, home := (3, 4),
    energy := 50, injury_days_left := 1, injury_speed_mult := 0.7 }

/-- Witness for C6: a creature entering the day with a one-day injury is
reset to base energy, its countdown is decremented to 0 and the speed
multiplier is cleared. -/
theorem C6_spawn_resets_witness :
    (0 : ℤ) < cW6.injury_days_left
    ∧ (spawn_one OW1 P0 wW4 cW6 (Rng.reseed 1)).1.injury_days_left
        = cW6.injury_days_left - 1
    ∧ (spawn_one OW1 P0 wW4 cW6 (Rng.reseed 1)).1.injury_speed_mult = 1.0
    ∧ (spawn_one OW1 P0 wW4 cW6 (Rng.reseed 1)).1.energy = ENERGY.base_energy
    ∧ (spawn_one OW1 P0 wW4 cW6 (Rng.reseed 1)).1.eaten = 0 := by
  have t := C6_spawn_resets OW1 P0 wW4 cW6 (Rng.reseed 1)
  exact ⟨by norm_num [cW6], t.2.1 (by norm_num [cW6]), t.2.2.1 (by norm_num [cW6]),
    t.1.1, t.1.2.1⟩

/-! ## Genetics (`evo_sim/sim/genetics.py`) -/

/-- `_mutate_value(val, min_v, max_v)` from genetics.py (lines 9-15):
with probability `mutation_rate` perturb by a Gaussian whose deviation is
a fraction of the magnitude (floored for tiny values), then clamp. -/
def mutate_value (O : Oracle) (val min_v max_v : ℚ) (g : Rng) : ℚ × Rng :=
  let q := uniform O 0 1 g
  let vg : ℚ × Rng :=
    if q.1 ≤ REPRO.mutation_rate then
      let sd := |val| * REPRO.mutation_sd_frac
      let sd := if sd ≤ 1 / 1000000 then REPRO.mutation_sd_frac else sd
      gauss O val sd q.2
    else (val, q.2)
  (min (max vg.1 min_v) max_v, vg.2)

/-- `_random_color()` from genetics.py (lines 17-21). -/
def random_color (O : Oracle) (g : Rng) : (ℤ × ℤ × ℤ) × Rng :=
  let r := uniform O 70 240 g
  let gq := uniform O 70 240 r.2
  let b := uniform O 70 240 gq.2
  ((pyInt r.1, pyInt gq.1, pyInt b.1), b.2)

/-- The relative-drift helper `rel(a, b)` inside `_maybe_speciate`. -/
def relDrift (a b : ℚ) : ℚ := |a - b| / max (1 / 1000000) |b|

/-- `_maybe_speciate(parent, child, next_species_id)` from genetics.py
(lines 23-43): if the maximum relative drift of the three mutated traits
meets the speciation threshold, found a new `Species` with the fresh id,
random color, random aggression/bravery/metabolism/diet; otherwise the
child inherits the parent's `Species` reference.  Returns
`(child, next_species_id, new_flag, new_species, rng)`. -/
def maybe_speciate (O : Oracle) (parent child : Creature) (next_species_id : ℤ)
    (g : Rng) : Creature × ℤ × Bool × Option Species × Rng :=
  let drift_speed := relDrift child.speed parent.speed
  let drift_size := relDrift child.size parent.size
  let drift_sense := relDrift child.sense parent.sense
  if SPECIATION.threshold_frac ≤ max (max drift_speed drift_size) drift_sense then
    let col := random_color O g
    let agg := uniform O 0 1 col.2
    let brav := uniform O 0 1 agg.2
    let met := uniform O SPECIATION.min_metabolism SPECIATION.max_metabolism brav.2
    let dieq := choice O ["herbivore", "carnivore", "omnivore"] "omnivore" met.2
    let new_sp : Species :=
      { id := next_species_id, name := "Species " ++ toString next_species_id,
        color := col.1, aggression := agg.1, bravery := brav.1,
        metabolism := met.1, diet := dieq.1 }
    ({ child with species := new_sp }, next_species_id + 1, true, some new_sp, dieq.2)
  else
    ({ child with species := parent.species }, next_species_id, false, none, g)

/-- One iteration of the `reproduce_N_children` loop (genetics.py lines
61-82): mutate the three traits (in speed, size, sense order), build the
child, and run speciation.  Returns
`(child, next_creature_id, next_species_id, event, rng)` where the event
is present exactly when the Python code appends to `speciation_events`. -/
def reproChild (O : Oracle) (parent : Creature) (next_creature_id next_species_id : ℤ)
    (mutate_speed mutate_size mutate_sense : Bool) (g : Rng) :
    Creature × ℤ × ℤ × Option (Species × Species) × Rng :=
  let ms := if mutate_speed then
      mutate_value O parent.speed TRAITS.min_speed TRAITS.max_speed g
    else (parent.speed, g)
  let mz := if mutate_size then
      mutate_value O parent.size TRAITS.min_size TRAITS.max_size ms.2
    else (parent.size, ms.2)
  let mn := if mutate_sense then
      mutate_value O parent.sense TRAITS.min_sense TRAITS.max_sense mz.2
    else (parent.sense, mz.2)
  let child : Creature :=
    { id := next_creature_id, species := parent.species,
      speed := ms.1, size := mz.1, sense := mn.1,
      x := 0, y := 0, home := (0, 0), energy := 0 }
  let sp := maybe_speciate O parent child next_species_id mn.2
  (sp.1, next_creature_id + 1, sp.2.1,
   (if sp.2.2.1 = true then
      match sp.2.2.2.1 with
      | some new_sp => some (parent.species, new_sp)
      | none => none
    else none), sp.2.2.2.2)

/-- `reproduce_N_children(parent, n_offspring, ...)` from genetics.py
(lines 45-84): children, updated id counters and speciation events. -/
def reproduce_N_children (O : Oracle) (parent : Creature) :
    ℕ → ℤ → ℤ → Bool → Bool → Bool → Rng →
    List Creature × ℤ × ℤ × List (Species × Species) × Rng
  | 0, ncid, nsid, _, _, _, g => ([], ncid, nsid, [], g)
  | n + 1, ncid, nsid, msp, msz, msn, g =>
    let r := reproChild O parent ncid nsid msp msz msn g
    let rest := reproduce_N_children O parent n r.2.1 r.2.2.1 msp msz msn r.2.2.2.2
    (r.1 :: rest.1, rest.2.1, rest.2.2.1,
     (match r.2.2.2.1 with
      | some e => [e]
      | none => []) ++ rest.2.2.2.1, rest.2.2.2.2)


/-- Event characterization of `_maybe_speciate`: the speciation event of
the `reproduce_N_children` loop body is present exactly when a new
species was founded, and it pairs the parent's species with the child's
new species (carrying the fresh id). -/
lemma maybe_speciate_event (O : Oracle) (parent child : Creature) (nsid : ℤ) (g : Rng) :
    (∀ e : Species × Species,
      (if (maybe_speciate O parent child nsid g).2.2.1 = true then
        match (maybe_speciate O parent child nsid g).2.2.2.1 with
        | some new_sp => some (parent.species, new_sp)
        | none => none
       else none) = some e →
      e.1 = parent.species ∧ e.2.id = nsid
        ∧ (maybe_speciate O parent child nsid g).1.species = e.2)
    ∧ ((if (maybe_speciate O parent child nsid g).2.2.1 = true then
        match (maybe_speciate O parent child nsid g).2.2.2.1 with
        | some new_sp => some (parent.species, new_sp)
        | none => none
       else none) = none →
      (maybe_speciate O parent child nsid g).1.species = parent.species) := by
  rcases Classical.em (SPECIATION.threshold_frac ≤
      max (max (relDrift child.speed parent.speed) (relDrift child.size parent.size))
        (relDrift child.sense parent.sense)) with hth | hth
  · simp only [maybe_speciate]
    rw [if_pos hth]
    dsimp only
    rw [if_pos rfl]
    constructor
    · intro e he
      have h2 := Option.some.inj he
      subst h2
      exact ⟨rfl, rfl, rfl⟩
    · intro hn
      exact absurd hn (by simp)
  · simp only [maybe_speciate]
    rw [if_neg hth]
    dsimp only
    rw [if_neg (by simp)]
    constructor
    · intro e he
      exact absurd he (by simp)
    · intro _
      rfl

/-! ## Claim C7 -/

/-- C7: if the maximum relative drift of the mutated traits stays below
the speciation threshold, the child keeps the parent's `Species`
reference (same id) and no event fires; if it meets the threshold, the
child receives a brand-new `Species` carrying the designated fresh id
(the counter advances past it), and the loop body of
`reproduce_N_children` emits a speciation event pairing the parent's
species with the child's new one. -/
theorem C7_speciation_threshold (O : Oracle) (parent child : Creature)
    (nsid : ℤ) (g : Rng) :
    (max (max (relDrift child.speed parent.speed) (relDrift child.size parent.size))
        (relDrift child.sense parent.sense) < SPECIATION.threshold_frac →
      ((maybe_speciate O parent child nsid g).1.species = parent.species
        ∧ (maybe_speciate O parent child nsid g).2.1 = nsid
        ∧ (maybe_speciate O parent child nsid g).2.2.1 = false
        ∧ (maybe_speciate O parent child nsid g).2.2.2.1 = none))
    ∧ (SPECIATION.threshold_frac ≤
        max (max (relDrift child.speed parent.speed) (relDrift child.size parent.size))
          (relDrift child.sense parent.sense) →
      ((maybe_speciate O parent child nsid g).1.species.id = nsid
        ∧ (maybe_speciate O parent child nsid g).2.1 = nsid + 1
        ∧ (maybe_speciate O parent child nsid g).2.2.1 = true
        ∧ ∃ sp : Species, (maybe_speciate O parent child nsid g).2.2.2.1 = some sp
            ∧ sp.id = nsid
            ∧ (maybe_speciate O parent child nsid g).1.species = sp))
    ∧ (∀ (ncid : ℤ) (e : Species × Species),
        (reproChild O parent ncid nsid true true true g).2.2.2.1 = some e →
        e.1 = parent.species
        ∧ e.2.id = nsid
        ∧ (reproChild O parent ncid nsid true true true g).1.species = e.2)
    ∧ (∀ ncid : ℤ,
        (reproChild O parent ncid nsid true true true g).2.2.2.1 = none →
        (reproChild O parent ncid nsid true true true g).1.species = parent.species) := by
  refine ⟨?_, ?_, ?_, ?_⟩
  · intro h
    simp only [maybe_speciate]
    rw [if_neg (not_le.mpr h)]
    exact ⟨rfl, rfl, rfl, rfl⟩
  · intro h
    simp only [maybe_speciate]
    rw [if_pos h]
    exact ⟨rfl, rfl, rfl, _, rfl, rfl, rfl⟩
  · intro ncid e he
    simp only [reproChild] at he ⊢
    exact (maybe_speciate_event O parent _ nsid _).1 e he
  · intro ncid hn
    simp only [reproChild] at hn ⊢
    exact (maybe_speciate_event O parent _ nsid _).2 hn

/-- Parent creature for the C7 witness. -/
def parentC7 : Creature :=
  { id := 41,
    species := { id := 1, name := "Azure", color := (70, 140, 240),
                 aggression := 0.35, bravery := 0.55, metabolism := 1.00,
                 diet := "omnivore" },
    speed := 1, size := 1, sense := 10, x := 0, y := 0, home := (0, 0),
    energy := 0 }

/-- A child mutated well within the speciation threshold. -/
def childA7 : Creature := { parentC7 with id := 42, speed := 1.05 }

/-- A child whose speed drifted by 100 percent. -/
def childB7 : Creature := { parentC7 with id := 43, speed := 2 }

/-- Witness for C7: a small drift keeps the parent's species, a 100
percent speed drift founds a new species with the fresh id 9 and
advances the counter to 10. -/
theorem C7_speciation_threshold_witness :
    (max (max (relDrift childA7.speed parentC7.speed)
          (relDrift childA7.size parentC7.size))
        (relDrift childA7.sense parentC7.sense) < SPECIATION.threshold_frac
      ∧ (maybe_speciate OW1 parentC7 childA7 9 (Rng.reseed 3)).1.species
          = parentC7.species)
    ∧ (SPECIATION.threshold_frac ≤
        max (max (relDrift childB7.speed parentC7.speed)
            (relDrift childB7.size parentC7.size))
          (relDrift childB7.sense parentC7.sense)
      ∧ (maybe_speciate OW1 parentC7 childB7 9 (Rng.reseed 3)).1.species.id = 9
      ∧ (maybe_speciate OW1 parentC7 childB7 9 (Rng.reseed 3)).2.1 = 10) := by
  have hA : max (max (relDrift childA7.speed parentC7.speed)
        (relDrift childA7.size parentC7.size))
      (relDrift childA7.sense parentC7.sense) < SPECIATION.threshold_frac := by
    have habs : |(1 : ℚ)/20| = 1/20 := abs_of_pos (by norm_num)
    norm_num [relDrift, parentC7, childA7, SPECIATION, habs]
  have hB : SPECIATION.threshold_frac ≤
      max (max (relDrift childB7.speed parentC7.speed)
          (relDrift childB7.size parentC7.size))
        (relDrift childB7.sense parentC7.sense) := by
    norm_num [relDrift, parentC7, childB7, SPECIATION]
  have tA := (C7_speciation_threshold OW1 parentC7 childA7 9 (Rng.reseed 3)).1 hA
  have tB := (C7_speciation_threshold OW1 parentC7 childB7 9 (Rng.reseed 3)).2.1 hB
  exact ⟨⟨hA, tA.1⟩, hB, tB.1, tB.2.1⟩

/-! ## Lineage tracker (`evo_sim/sim/lineage.py`) -/

/-- `SpeciesNode` from lineage.py. -/
structure SpeciesNode where
  species_id : ℤ
  name : String
  color : ℤ × ℤ × ℤ
  parent_id : Option ℤ
  birth_day : ℤ
  extinct_day : Option ℤ := none
  current_count : ℕ := 0
deriving Repr, DecidableEq

/-- `LineageTracker` state: the `nodes` dict is an association list keyed
by species id (Python dicts hold each key once; registration only ever
adds missing keys), plus the parent→children table and creation order. -/
structure LineageTracker where
  nodes : List (ℤ × SpeciesNode) := []
  children : List (ℤ × List ℤ) := []
  order : List ℤ := []
deriving Repr, DecidableEq

/-- `LineageTracker.register_root_species(species, birth_day)` from
lineage.py (lines 31-44). -/
def register_root_species (t : LineageTracker) (sp : Species) (birth_day : ℤ) :
    LineageTracker :=
  if (t.nodes.lookup sp.id).isSome then t
  else
    { nodes := t.nodes ++ [(sp.id,
        { species_id := sp.id, name := sp.name, color := sp.color,
          parent_id := none, birth_day := birth_day })],
      children := t.children ++ [(sp.id, [])],
      order := t.order ++ [sp.id] }

/-- Update the child list of a key in the children table, appending the
key with `[cid]` when absent (Python `dict.setdefault(...).append`). -/
def children_append (table : List (ℤ × List ℤ)) (pid cid : ℤ) : List (ℤ × List ℤ) :=
  if (table.lookup pid).isSome then
    table.map (fun p => if p.1 = pid then (p.1, p.2 ++ [cid]) else p)
  else table ++ [(pid, [cid])]

/-- Add a key with an empty child list when absent (`setdefault(cid, [])`). -/
def children_default (table : List (ℤ × List ℤ)) (cid : ℤ) : List (ℤ × List ℤ) :=
  if (table.lookup cid).isSome then table else table ++ [(cid, [])]

/-- `LineageTracker.register_speciation(parent, child, birth_day)` from
lineage.py (lines 46-63): defensively create a missing parent node, then
link the child node if new. -/
def register_speciation (t : LineageTracker) (parent child : Species)
    (birth_day : ℤ) : LineageTracker :=
  let t := if (t.nodes.lookup parent.id).isSome then t
           else register_root_species t parent birth_day
  if (t.nodes.lookup child.id).isSome then t
  else
    { nodes := t.nodes ++ [(child.id,
        { species_id := child.id, name := child.name, color := child.color,
          parent_id := some parent.id, birth_day := birth_day })],
      children := children_default (children_append t.children parent.id child.id)
        child.id,
      order := t.order ++ [child.id] }

/-- The count reset at the top of `update_from_population` (lineage.py
lines 68-69). -/
def reset_counts (t : LineageTracker) : LineageTracker :=
  { t with nodes := t.nodes.map (fun p => (p.1, { p.2 with current_count := 0 })) }

/-- One iteration of the counting loop (lineage.py lines 71-72):
`self.nodes[c.species.id].current_count += 1`, which raises `KeyError`
(modelled as `none`) when the species was never registered. -/
def bump_count (nodes : List (ℤ × SpeciesNode)) (sid : ℤ) :
    Option (List (ℤ × SpeciesNode)) :=
  if (nodes.lookup sid).isSome then
    some (nodes.map (fun p =>
      if p.1 = sid then (p.1, { p.2 with current_count := p.2.current_count + 1 })
      else p))
  else none

/-- The counting loop of `update_from_population` over the creatures. -/
def count_creatures (nodes : List (ℤ × SpeciesNode)) :
    List Creature → Option (List (ℤ × SpeciesNode))
  | [] => some nodes
  | c :: rest =>
    match bump_count nodes c.species.id with
    | none => none
    | some nodes1 => count_creatures nodes1 rest

/-- `LineageTracker.update_from_population(creatures, day)` from
lineage.py (lines 66-77): reset counts, recount per species (`none` on an
unregistered species, where Python raises `KeyError`), then latch
`extinct_day` for species whose census is zero on/after their birth day. -/
def update_from_population (t : LineageTracker) (creatures : List Creature)
    (day : ℤ) : Option LineageTracker :=
  let t0 := reset_counts t
  match count_creatures t0.nodes creatures with
  | none => none
  | some nodes1 =>
    some { t0 with nodes := nodes1.map (fun p =>
      if p.2.extinct_day = none ∧ p.2.birth_day ≤ day ∧ p.2.current_count = 0
      then (p.1, { p.2 with extinct_day := some day }) else p) }

/-! ## Claim C10: helper lemmas -/

/-- A key-preserving map does not change which keys an association list
holds. -/
lemma lookup_isSome_map_fst {β : Type} (l : List (ℤ × β)) (f : ℤ × β → β) (sid : ℤ) :
    ((l.map (fun p => (p.1, f p))).lookup sid).isSome = (l.lookup sid).isSome := by
  induction l with
  | nil => rfl
  | cons hd tl ih =>
    by_cases h : sid = hd.1
    · simp [List.lookup, h]
    · have hb : (sid == hd.1) = false := by
        simp [h]
      simp only [List.map, List.lookup, hb]
      exact ih

/-- A successful bump keeps the key set of the node table. -/
lemma bump_count_keys (nodes : List (ℤ × SpeciesNode)) (sid : ℤ)
    (n1 : List (ℤ × SpeciesNode)) (h : bump_count nodes sid = some n1) (q : ℤ) :
    (n1.lookup q).isSome = (nodes.lookup q).isSome := by
  simp only [bump_count] at h
  split_ifs at h with hs
  · have h2 := Option.some.inj h
    subst h2
    have := lookup_isSome_map_fst nodes
      (fun p => if p.1 = sid then { p.2 with current_count := p.2.current_count + 1 }
                else p.2) q
    rw [← this]
    congr 1
    apply congrArg (fun l => List.lookup q l)
    apply List.map_congr_left
    intro p _
    by_cases hp : p.1 = sid <;> simp [hp]

/-- The counting loop succeeds exactly when every creature's species id
is a key of the node table. -/
lemma count_creatures_isSome (creatures : List Creature) :
    ∀ nodes : List (ℤ × SpeciesNode),
      (count_creatures nodes creatures).isSome
        ↔ ∀ c ∈ creatures, (nodes.lookup c.species.id).isSome := by
  induction creatures with
  | nil => intro nodes; simp [count_creatures]
  | cons hd tl ih =>
    intro nodes
    constructor
    · intro h c hc
      simp only [count_creatures] at h
      rcases hb : bump_count nodes hd.species.id with _ | n1
      · rw [hb] at h
        simp at h
      · rw [hb] at h
        have hhd : (nodes.lookup hd.species.id).isSome = true := by
          simp only [bump_count] at hb
          split_ifs at hb with hs
          exact hs
        rcases List.mem_cons.mp hc with hc2 | hc2
        · subst hc2; exact hhd
        · have := (ih n1).mp h c hc2
          rw [bump_count_keys nodes hd.species.id n1 hb] at this
          exact this
    · intro h
      simp only [count_creatures]
      have hhd := h hd (by simp)
      rcases hb : bump_count nodes hd.species.id with _ | n1
      · simp only [bump_count] at hb
        rw [if_pos hhd] at hb
        exact absurd hb (by simp)
      · have : ∀ c ∈ tl, (n1.lookup c.species.id).isSome := by
          intro c hc
          rw [bump_count_keys nodes hd.species.id n1 hb]
          exact h c (by simp [hc])
        exact (ih n1).mpr this

/-! ## Claim C10 -/

/-- C10: `update_from_population` indexes the node table by each
creature's species id with no guard: when every referenced species is
registered (its id is a key of `nodes`) the update succeeds, and when
some creature's species is unregistered the operation fails with a
key-lookup error (`none`) instead of counting it. -/
theorem C10_update_requires_registration (t : LineageTracker)
    (creatures : List Creature) (day : ℤ) :
    ((∀ c ∈ creatures, ((t.nodes.lookup c.species.id)).isSome) →
      (update_from_population t creatures day).isSome)
    ∧ ((∃ c ∈ creatures, t.nodes.lookup c.species.id = none) →
      update_from_population t creatures day = none) := by
  have hkeys : ∀ q : ℤ, ((reset_counts t).nodes.lookup q).isSome
      = (t.nodes.lookup q).isSome := by
    intro q
    simp only [reset_counts]
    exact lookup_isSome_map_fst t.nodes (fun p => { p.2 with current_count := 0 }) q
  constructor
  · intro h
    simp only [update_from_population]
    rcases hc : count_creatures (reset_counts t).nodes creatures with _ | nodes1
    · exfalso
      have : (count_creatures (reset_counts t).nodes creatures).isSome := by
        rw [count_creatures_isSome]
        intro c hcc
        rw [hkeys]
        exact h c hcc
      rw [hc] at this
      simp at this
    · simp
  · intro h
    rcases h with ⟨c, hc, hnone⟩
    simp only [update_from_population]
    rcases hcc : count_creatures (reset_counts t).nodes creatures with _ | nodes1
    · rfl
    · exfalso
      have h2 : ∀ c2 ∈ creatures, ((reset_counts t).nodes.lookup c2.species.id).isSome := by
        rw [← count_creatures_isSome]
        rw [hcc]
        simp
      have h3 := h2 c hc
      rw [hkeys] at h3
      rw [hnone] at h3
      simp at h3

/-- Registered tracker used by the C10 witness. -/
def trackerW10 : LineageTracker :=
  register_root_species {} parentC7.species 0

/-- Witness for C10: with the parent species registered, counting a
population of that species succeeds; a population containing an
unregistered species makes the update fail. -/
theorem C10_update_requires_registration_witness :
    (∀ c ∈ [parentC7], ((trackerW10.nodes.lookup c.species.id)).isSome)
    ∧ (update_from_population trackerW10 [parentC7] 0).isSome
    ∧ update_from_population trackerW10 [predC2] 0 = none := by
  have hreg : ∀ c ∈ [parentC7], ((trackerW10.nodes.lookup c.species.id)).isSome := by
    intro c hc
    simp only [List.mem_singleton] at hc
    subst hc
    decide
  refine ⟨hreg, (C10_update_requires_registration trackerW10 [parentC7] 0).1 hreg, ?_⟩
  exact (C10_update_requires_registration trackerW10 [predC2] 0).2
    ⟨predC2, by simp, by decide⟩

/-! ## Day-by-day summaries and the headless run loop
(`evo_sim/sim/metrics.py` and `evo_sim/main.py`) -/

/-- One row of `summarize_day` (metrics.py lines 9-20). -/
structure DaySummary where
  day : ℤ
  n : ℕ
  alive : ℕ
  ate0 : ℕ
  ate1 : ℕ
  ate2p : ℕ
  avg_speed : ℚ
  avg_size : ℚ
  avg_sense : ℚ
deriving Repr, DecidableEq

/-- `summarize_day(day, population)` from metrics.py. -/
def summarize_day (day : ℤ) (population : List Creature) : DaySummary :=
  { day := day,
    n := population.length,
    alive := (population.filter (fun c => c.alive)).length,
    ate0 := (population.filter (fun c => c.eaten == 0)).length,
    ate1 := (population.filter (fun c => c.eaten == 1)).length,
    ate2p := (population.filter (fun c => 2 ≤ c.eaten)).length,
    avg_speed := (population.map (fun c => c.speed)).sum / (max population.length 1 : ℕ),
    avg_size := (population.map (fun c => c.size)).sum / (max population.length 1 : ℕ),
    avg_sense := (population.map (fun c => c.sense)).sum / (max population.length 1 : ℕ) }

/-- The population list after `end_of_day_selection` returns: the Python
loop mutates `hungry_streak`/`alive` of each living creature in place, so
the list the caller still holds consists of the `selOne` images of the
living creatures (dead ones untouched). -/
def end_of_day_population (O : Oracle) (l : List Creature) : List Creature :=
  l.map (fun c => if c.alive = true then (selOne O c).1 else c)

/-- `_seed_species()` from main.py (lines 15-20). -/
def seed_species : List Species :=
  [ { id := 1, name := "Azure", color := (70, 140, 240), aggression := 0.35,
      bravery := 0.55, metabolism := 1.00, diet := "omnivore" },
    { id := 2, name := "Amber", color := (240, 160, 60), aggression := 0.10,
      bravery := 0.80, metabolism := 0.95, diet := "herbivore" },
    { id := 3, name := "Viridian", color := (60, 200, 120), aggression := 0.65,
      bravery := 0.40, metabolism := 1.05, diet := "carnivore" } ]

/-- Loop of `init_population` (main.py lines 27-36): the i-th creature
cycles through the seed species and draws speed, size and sense. -/
def init_pop_go (O : Oracle) (start_id : ℤ) :
    ℕ → ℕ → Rng → List Creature × Rng
  | 0, _, g => ([], g)
  | k + 1, i, g =>
    let sp := (seed_species.get? (i % seed_species.length)).getD
      { id := 0, name := "", color := (0, 0, 0), aggression := 0, bravery := 0,
        metabolism := 1, diet := "herbivore" }
    let qs := uniform O 0.75 1.25 g
    let qz := uniform O 0.75 1.25 qs.2
    let qn := uniform O 8.0 15.0 qz.2
    let c : Creature :=
      { id := start_id + (i : ℤ), species := sp, speed := qs.1, size := qz.1,
        sense := qn.1, x := 0, y := 0, home := (0, 0), energy := 0 }
    let rest := init_pop_go O start_id k (i + 1) qn.2
    (c :: rest.1, rest.2)

/-- `init_population(n, start_id, seed)` from main.py (lines 22-37):
reseeds the RNG when a seed is given. -/
def init_population (O : Oracle) (n : ℕ) (start_id : ℤ) (seed : Option ℤ)
    (g : Rng) : List Creature × Rng :=
  let g0 := match seed with
            | some s => Rng.reseed s
            | none => g
  init_pop_go O start_id n 0 g0

/-- `max(c.id for c in pop)` over a non-empty population (main.py lines
57 and 93); 0 for the empty list, on which Python raises. -/
def pyMaxIds (l : List Creature) : ℤ :=
  match l.map (fun c => c.id) with
  | [] => 0
  | x :: xs => xs.foldl max x

/-- `max(c.species.id for c in pop)` in the same way. -/
def pyMaxSpeciesIds (l : List Creature) : ℤ :=
  match l.map (fun c => c.species.id) with
  | [] => 0
  | x :: xs => xs.foldl max x

/-- State threaded through the day loop of `run()` in main.py. -/
structure SimState where
  world : World
  population : List Creature
  next_id : ℤ
  next_species_id : ℤ
  g : Rng
deriving Repr

/-- The reproduction loop of `run()` (main.py lines 83-89). -/
def repro_fold (O : Oracle) :
    List (Creature × ℕ) → ℤ → ℤ → Rng → List Creature × ℤ × ℤ × Rng
  | [], nid, nsid, g => ([], nid, nsid, g)
  | pk :: rest, nid, nsid, g =>
    let r := reproduce_N_children O pk.1 pk.2 nid nsid true true true g
    let rr := repro_fold O rest r.2.1 r.2.2.1 r.2.2.2.2
    (r.1 ++ rr.1, rr.2.1, rr.2.2.1, rr.2.2.2)

/-- The survivor copy of `run()` (main.py lines 75-81): a fresh creature
keeping id, species, traits and hunger streak, everything else default. -/
def copy_survivor (s : Creature) : Creature :=
  { id := s.id, species := s.species, speed := s.speed, size := s.size,
    sense := s.sense, x := 0, y := 0, home := (0, 0), energy := 0,
    hungry_streak := s.hungry_streak }

/-- One iteration of the day loop of `run()` (main.py lines 60-96):
simulate the day, select, summarize, rebuild the next generation from
survivor copies plus offspring, and reseed a default population when
everyone died. -/
def run_day (O : Oracle) (P : PredHomeConfig) (pop_n : ℕ) (seed : ℤ) (day : ℤ)
    (st : SimState) : SimState × DaySummary :=
  let sd := simulate_day O P st.world st.population st.g
  let sel := end_of_day_selection O sd.2.1
  let mutated := end_of_day_population O sd.2.1
  let summary := summarize_day day mutated
  let base := sel.1.map copy_survivor
  let rr := repro_fold O sel.2 st.next_id st.next_species_id sd.2.2
  let new_pop := base ++ rr.1
  if new_pop.length = 0 then
    let ip := init_population O pop_n rr.2.1 (some seed) rr.2.2.2
    ({ world := sd.1, population := ip.1,
       next_id := pyMaxIds ip.1 + 1,
       next_species_id := pyMaxSpeciesIds ip.1 + 1, g := ip.2 }, summary)
  else
    ({ world := sd.1, population := new_pop,
       next_id := rr.2.1, next_species_id := rr.2.2.1, g := rr.2.2.2 }, summary)

/-- The day loop of `run()` for a given number of days, collecting the
per-day summaries in order. -/
def run_days (O : Oracle) (P : PredHomeConfig) (pop_n : ℕ) (seed : ℤ) :
    ℕ → ℤ → SimState → SimState × List DaySummary
  | 0, _, st => (st, [])
  | n + 1, day, st =>
    let r := run_day O P pop_n seed day st
    let rest := run_days O P pop_n seed n (day + 1) r.1
    (rest.1, r.2 :: rest.2)

/-- `run()` from main.py (lines 39-100, headless path): seed the RNG,
build the initial population, then run the day loop from day 1. -/
def run_sim (O : Oracle) (P : PredHomeConfig) (days : ℕ) (seed : ℤ)
    (pop_n : ℕ) : SimState × List DaySummary :=
  let ip := init_population O pop_n 1 (some seed) (Rng.reseed seed)
  let st : SimState :=
    { world := {}, population := ip.1,
      next_id := pyMaxIds ip.1 + 1,
      next_species_id := pyMaxSpeciesIds ip.1 + 1, g := ip.2 }
  run_days O P pop_n seed days 1 st

/-! ## Claim C8 -/

/-- C8: the simulation is deterministic as a two-run property — under any
fixed oracle (the abstract square root, trig and raw random stream), two
runs started with the same RNG seed, the same initial population in the
same iteration order (here: equal simulation states), and the same
configuration produce identical state after every day and identical
day-by-day summaries; in particular two `run_sim` invocations with equal
seed and population size agree on the full summary list. -/
theorem C8_two_run_determinism (O : Oracle) (P : PredHomeConfig) :
    (∀ (days : ℕ) (seed1 seed2 : ℤ) (n1 n2 : ℕ),
      seed1 = seed2 → n1 = n2 →
      run_sim O P days seed1 n1 = run_sim O P days seed2 n2
        ∧ (run_sim O P days seed1 n1).2 = (run_sim O P days seed2 n2).2)
    ∧ (∀ (pop_n : ℕ) (seed : ℤ) (days : ℕ) (day : ℤ) (st1 st2 : SimState),
      st1.world = st2.world → st1.population = st2.population →
      st1.next_id = st2.next_id → st1.next_species_id = st2.next_species_id →
      st1.g = st2.g →
      run_days O P pop_n seed days day st1 = run_days O P pop_n seed days day st2) := by
  constructor
  · intro days seed1 seed2 n1 n2 hs hn
    subst hs
    subst hn
    exact ⟨rfl, rfl⟩
  · intro pop_n seed days day st1 st2 h1 h2 h3 h4 h5
    have : st1 = st2 := by
      cases st1
      cases st2
      simp only at h1 h2 h3 h4 h5
      subst h1; subst h2; subst h3; subst h4; subst h5
      rfl
    rw [this]

/-- Witness for C8: two runs from seed 42 with 60 agents over any number
of days agree; applied at 3 days. -/
theorem C8_two_run_determinism_witness :
    run_sim OW1 P0 3 42 60 = run_sim OW1 P0 3 42 60
      ∧ (run_sim OW1 P0 3 42 60).2 = (run_sim OW1 P0 3 42 60).2 :=
  (C8_two_run_determinism OW1 P0).1 3 42 42 60 60 rfl rfl

end EvoSim
